import Mathlib

/-!
A shallow embedding of `src/webcolors.py` (the `webcolors` library) in Lean 4,
together with theorems checking the library specification against the code.

Modelling conventions:
* Python strings are embedded as `String` (for table keys and values) or
  `List Char` (for the character-level HTML5 parsing algorithms); `s.toList`
  mediates between the two.
* Python dicts are embedded as association lists in source order. Lookup
  (`d.get(k)` / `d[k]`) is `List.lookup` (first match); dict-comprehension
  duplicate-key overwriting is modelled where it occurs (see `_reversedict`).
* Python `raise ValueError(msg)` is embedded as `Except ColorError`, with one
  `ColorError` constructor per distinct raise site in the source.
* Python `str.lower` is embedded as ASCII lowercasing, which agrees with it on
  all ASCII input (every table key and every string compared against one here).
* Python machine floats are embedded as exact rationals (`ℚ`). Every theorem
  below evaluates float expressions only at points where the exact value is
  farther from a rounding boundary than any accumulated float error, so the
  embedded results coincide with the host-float results.
-/

set_option maxRecDepth 16000

instance exceptDecEq {ε α : Type} [DecidableEq ε] [DecidableEq α] :
    DecidableEq (Except ε α) := fun x y =>
  match x, y with
  | Except.ok a, Except.ok b =>
    if h : a = b then Decidable.isTrue (by rw [h])
    else Decidable.isFalse (fun heq => h (Except.ok.inj heq))
  | Except.error a, Except.error b =>
    if h : a = b then Decidable.isTrue (by rw [h])
    else Decidable.isFalse (fun heq => h (Except.error.inj heq))
  | Except.ok _, Except.error _ => Decidable.isFalse (fun heq => nomatch heq)
  | Except.error _, Except.ok _ => Decidable.isFalse (fun heq => nomatch heq)

namespace Webcolors

/-- The distinct `ValueError` conditions raised by the library, one constructor
per distinct raise site in the source. -/
inductive ColorError where
  /-- `normalize_hex`: the value does not match `HEX_COLOR_RE`. -/
  | invalidFormat : ColorError
  /-- `SPECIFICATION_ERROR_TEMPLATE`: a spec tag not in `SUPPORTED_SPECIFICATIONS`. -/
  | unsupportedSpecification : String → ColorError
  /-- `name_to_hex`: the name is not defined in the chosen specification. -/
  | nameNotFound : String → String → ColorError
  /-- `hex_to_name`: the hex value has no defined name in the chosen specification. -/
  | hexNotFound : String → String → ColorError
  /-- `html5_parse_simple_color`: input is not exactly seven characters long. -/
  | invalidLength : ColorError
  /-- `html5_parse_simple_color`: input does not begin with the character U+0023. -/
  | missingHashMark : ColorError
  /-- `html5_parse_simple_color`: input does not contain six ASCII hex digits. -/
  | invalidHexDigits : ColorError
  /-- `html5_parse_legacy_color`: the empty string is forbidden as a value. -/
  | emptyInput : ColorError
  /-- `html5_parse_legacy_color`: the keyword for full transparency is forbidden. -/
  | transparentNotAllowed : ColorError
  /-- CPython `ValueError` from `int(s, 16)` on a malformed literal. Unreachable
  at every call site; kept so the embedding is total without stubbing. -/
  | invalidIntLiteral : ColorError
  /-- CPython `ValueError` from `float(s)` / `int(s)` on a malformed literal. -/
  | invalidNumber : ColorError
  /-- CPython `KeyError` from a dict subscript. Unreachable at every call site. -/
  | keyError : ColorError
  deriving DecidableEq

/-- `string.hexdigits` from the Python standard library. -/
def hexdigits : List Char := "0123456789abcdefABCDEF".toList

/-- The check `c in string.hexdigits`. -/
def isHexDigit (c : Char) : Bool := hexdigits.contains c

/-- The numeric value of a hexadecimal digit character, and 0 for any other
character (48-57 are the code points of 0-9, 97-102 of a-f, 65-70 of A-F). -/
def hexVal (c : Char) : Nat :=
  if 48 ≤ c.toNat ∧ c.toNat ≤ 57 then c.toNat - 48
  else if 97 ≤ c.toNat ∧ c.toNat ≤ 102 then c.toNat - 87
  else if 65 ≤ c.toNat ∧ c.toNat ≤ 70 then c.toNat - 55
  else 0

/-- Python `int(s, 16)`: errors on the empty string or any non-hex character.
(The optional surrounding whitespace, sign, `0x` functionality, and digit-group
underscores accepted by CPython never arise at any call site in the library,
whose arguments are always nonempty all-hex strings.) -/
def intBase16 (s : List Char) : Except ColorError Nat :=
  if s ≠ [] ∧ s.all isHexDigit = true then
    Except.ok (s.foldl (fun a c => a * 16 + hexVal c) 0)
  else Except.error ColorError.invalidIntLiteral

/-- The character class stripped by Python `str.strip()` with no argument:
precisely the characters for which `str.isspace()` holds. -/
def pyIsSpace (c : Char) : Bool :=
  c.toNat ∈ [0x09, 0x0a, 0x0b, 0x0c, 0x0d, 0x1c, 0x1d, 0x1e, 0x1f, 0x20, 0x85,
    0xa0, 0x1680, 0x2000, 0x2001, 0x2002, 0x2003, 0x2004, 0x2005, 0x2006,
    0x2007, 0x2008, 0x2009, 0x200a, 0x2028, 0x2029, 0x202f, 0x205f, 0x3000]

/-- Python `str.lower()` on a string, as ASCII lowercasing of its characters
(see the file header). -/
def pyLower (s : String) : String := String.mk (s.toList.map Char.toLower)

/-- Python `str.strip()`: remove leading and trailing whitespace. -/
def pyStrip (l : List Char) : List Char :=
  ((l.dropWhile pyIsSpace).reverse.dropWhile pyIsSpace).reverse

def HTML4_NAMES_TO_HEX : List (String × String) := [
  ("aqua", "#00ffff"),
  ("black", "#000000"),
  ("blue", "#0000ff"),
  ("fuchsia", "#ff00ff"),
  ("green", "#008000"),
  ("gray", "#808080"),
  ("lime", "#00ff00"),
  ("maroon", "#800000"),
  ("navy", "#000080"),
  ("olive", "#808000"),
  ("purple", "#800080"),
  ("red", "#ff0000"),
  ("silver", "#c0c0c0"),
  ("teal", "#008080"),
  ("white", "#ffffff"),
  ("yellow", "#ffff00")]

def CSS3_NAMES_TO_HEX : List (String × String) := [
  ("aliceblue", "#f0f8ff"),
  ("antiquewhite", "#faebd7"),
  ("aqua", "#00ffff"),
  ("aquamarine", "#7fffd4"),
  ("azure", "#f0ffff"),
  ("beige", "#f5f5dc"),
  ("bisque", "#ffe4c4"),
  ("black", "#000000"),
  ("blanchedalmond", "#ffebcd"),
  ("blue", "#0000ff"),
  ("blueviolet", "#8a2be2"),
  ("brown", "#a52a2a"),
  ("burlywood", "#deb887"),
  ("cadetblue", "#5f9ea0"),
  ("chartreuse", "#7fff00"),
  ("chocolate", "#d2691e"),
  ("coral", "#ff7f50"),
  ("cornflowerblue", "#6495ed"),
  ("cornsilk", "#fff8dc"),
  ("crimson", "#dc143c"),
  ("cyan", "#00ffff"),
  ("darkblue", "#00008b"),
  ("darkcyan", "#008b8b"),
  ("darkgoldenrod", "#b8860b"),
  ("darkgray", "#a9a9a9"),
  ("darkgrey", "#a9a9a9"),
  ("darkgreen", "#006400"),
  ("darkkhaki", "#bdb76b"),
  ("darkmagenta", "#8b008b"),
  ("darkolivegreen", "#556b2f"),
  ("darkorange", "#ff8c00"),
  ("darkorchid", "#9932cc"),
  ("darkred", "#8b0000"),
  ("darksalmon", "#e9967a"),
  ("darkseagreen", "#8fbc8f"),
  ("darkslateblue", "#483d8b"),
  ("darkslategray", "#2f4f4f"),
  ("darkslategrey", "#2f4f4f"),
  ("darkturquoise", "#00ced1"),
  ("darkviolet", "#9400d3"),
  ("deeppink", "#ff1493"),
  ("deepskyblue", "#00bfff"),
  ("dimgray", "#696969"),
  ("dimgrey", "#696969"),
  ("dodgerblue", "#1e90ff"),
  ("firebrick", "#b22222"),
  ("floralwhite", "#fffaf0"),
  ("forestgreen", "#228b22"),
  ("fuchsia", "#ff00ff"),
  ("gainsboro", "#dcdcdc"),
  ("ghostwhite", "#f8f8ff"),
  ("gold", "#ffd700"),
  ("goldenrod", "#daa520"),
  ("gray", "#808080"),
  ("grey", "#808080"),
  ("green", "#008000"),
  ("greenyellow", "#adff2f"),
  ("honeydew", "#f0fff0"),
  ("hotpink", "#ff69b4"),
  ("indianred", "#cd5c5c"),
  ("indigo", "#4b0082"),
  ("ivory", "#fffff0"),
  ("khaki", "#f0e68c"),
  ("lavender", "#e6e6fa"),
  ("lavenderblush", "#fff0f5"),
  ("lawngreen", "#7cfc00"),
  ("lemonchiffon", "#fffacd"),
  ("lightblue", "#add8e6"),
  ("lightcoral", "#f08080"),
  ("lightcyan", "#e0ffff"),
  ("lightgoldenrodyellow", "#fafad2"),
  ("lightgray", "#d3d3d3"),
  ("lightgrey", "#d3d3d3"),
  ("lightgreen", "#90ee90"),
  ("lightpink", "#ffb6c1"),
  ("lightsalmon", "#ffa07a"),
  ("lightseagreen", "#20b2aa"),
  ("lightskyblue", "#87cefa"),
  ("lightslategray", "#778899"),
  ("lightslategrey", "#778899"),
  ("lightsteelblue", "#b0c4de"),
  ("lightyellow", "#ffffe0"),
  ("lime", "#00ff00"),
  ("limegreen", "#32cd32"),
  ("linen", "#faf0e6"),
  ("magenta", "#ff00ff"),
  ("maroon", "#800000"),
  ("mediumaquamarine", "#66cdaa"),
  ("mediumblue", "#0000cd"),
  ("mediumorchid", "#ba55d3"),
  ("mediumpurple", "#9370db"),
  ("mediumseagreen", "#3cb371"),
  ("mediumslateblue", "#7b68ee"),
  ("mediumspringgreen", "#00fa9a"),
  ("mediumturquoise", "#48d1cc"),
  ("mediumvioletred", "#c71585"),
  ("midnightblue", "#191970"),
  ("mintcream", "#f5fffa"),
  ("mistyrose", "#ffe4e1"),
  ("moccasin", "#ffe4b5"),
  ("navajowhite", "#ffdead"),
  ("navy", "#000080"),
  ("oldlace", "#fdf5e6"),
  ("olive", "#808000"),
  ("olivedrab", "#6b8e23"),
  ("orange", "#ffa500"),
  ("orangered", "#ff4500"),
  ("orchid", "#da70d6"),
  ("palegoldenrod", "#eee8aa"),
  ("palegreen", "#98fb98"),
  ("paleturquoise", "#afeeee"),
  ("palevioletred", "#db7093"),
  ("papayawhip", "#ffefd5"),
  ("peachpuff", "#ffdab9"),
  ("peru", "#cd853f"),
  ("pink", "#ffc0cb"),
  ("plum", "#dda0dd"),
  ("powderblue", "#b0e0e6"),
  ("purple", "#800080"),
  ("red", "#ff0000"),
  ("rosybrown", "#bc8f8f"),
  ("royalblue", "#4169e1"),
  ("saddlebrown", "#8b4513"),
  ("salmon", "#fa8072"),
  ("sandybrown", "#f4a460"),
  ("seagreen", "#2e8b57"),
  ("seashell", "#fff5ee"),
  ("sienna", "#a0522d"),
  ("silver", "#c0c0c0"),
  ("skyblue", "#87ceeb"),
  ("slateblue", "#6a5acd"),
  ("slategray", "#708090"),
  ("slategrey", "#708090"),
  ("snow", "#fffafa"),
  ("springgreen", "#00ff7f"),
  ("steelblue", "#4682b4"),
  ("tan", "#d2b48c"),
  ("teal", "#008080"),
  ("thistle", "#d8bfd8"),
  ("tomato", "#ff6347"),
  ("turquoise", "#40e0d0"),
  ("violet", "#ee82ee"),
  ("wheat", "#f5deb3"),
  ("white", "#ffffff"),
  ("whitesmoke", "#f5f5f5"),
  ("yellow", "#ffff00"),
  ("yellowgreen", "#9acd32")]

def COLOR_HEXA_NAMES_TO_HEX : List (String × String) := [
  ("Air Force Blue (Usaf)", "#00308f"),
  ("Air Superiority Blue", "#72a0c1"),
  ("Alabama Crimson", "#a32638"),
  ("Alice Blue", "#f0f8ff"),
  ("Alizarin Crimson", "#e32636"),
  ("Alloy Orange", "#c46210"),
  ("Almond", "#efdecd"),
  ("Amaranth", "#e52b50"),
  ("Amber", "#ffbf00"),
  ("Amber (Sae/Ece)", "#ff7e00"),
  ("American Rose", "#ff033e"),
  ("Amethyst", "#9966cc"),
  ("Android Green", "#a4c639"),
  ("Anti-Flash White", "#f2f3f4"),
  ("Antique Brass", "#cd9575"),
  ("Antique Fuchsia", "#915c83"),
  ("Antique Ruby", "#841b2d"),
  ("Antique White", "#faebd7"),
  ("Ao (English)", "#008000"),
  ("Apple Green", "#8db600"),
  ("Apricot", "#fbceb1"),
  ("Aqua", "#00ffff"),
  ("Aquamarine", "#7fffd4"),
  ("Army Green", "#4b5320"),
  ("Arsenic", "#3b444b"),
  ("Arylide Yellow", "#e9d66b"),
  ("Ash Grey", "#b2beb5"),
  ("Asparagus", "#87a96b"),
  ("Atomic Tangerine", "#ff9966"),
  ("Auburn", "#a52a2a"),
  ("Aureolin", "#fdee00"),
  ("Aurometalsaurus", "#6e7f80"),
  ("Avocado", "#568203"),
  ("Azure", "#007fff"),
  ("Azure Mist/Web", "#f0ffff"),
  ("Baby Blue", "#89cff0"),
  ("Baby Blue Eyes", "#a1caf1"),
  ("Baby Pink", "#f4c2c2"),
  ("Ball Blue", "#21abcd"),
  ("Banana Mania", "#fae7b5"),
  ("Banana Yellow", "#ffe135"),
  ("Barn Red", "#7c0a02"),
  ("Battleship Grey", "#848482"),
  ("Bazaar", "#98777b"),
  ("Beau Blue", "#bcd4e6"),
  ("Beaver", "#9f8170"),
  ("Beige", "#f5f5dc"),
  ("Big Dip ORuby", "#9c2542"),
  ("Bisque", "#ffe4c4"),
  ("Bistre", "#3d2b1f"),
  ("Bittersweet", "#fe6f5e"),
  ("Bittersweet Shimmer", "#bf4f51"),
  ("Black", "#000000"),
  ("Black Bean", "#3d0c02"),
  ("Black Leather Jacket", "#253529"),
  ("Black Olive", "#3b3c36"),
  ("Blanched Almond", "#ffebcd"),
  ("Blast-Off Bronze", "#a57164"),
  ("Bleu De France", "#318ce7"),
  ("Blizzard Blue", "#ace5ee"),
  ("Blond", "#faf0be"),
  ("Blue", "#0000ff"),
  ("Blue Bell", "#a2a2d0"),
  ("Blue (Crayola)", "#1f75fe"),
  ("Blue Gray", "#6699cc"),
  ("Blue-Green", "#0d98ba"),
  ("Blue (Munsell)", "#0093af"),
  ("Blue (Ncs)", "#0087bd"),
  ("Blue (Pigment)", "#333399"),
  ("Blue (Ryb)", "#0247fe"),
  ("Blue Sapphire", "#126180"),
  ("Blue-Violet", "#8a2be2"),
  ("Blush", "#de5d83"),
  ("Bole", "#79443b"),
  ("Bondi Blue", "#0095b6"),
  ("Bone", "#e3dac9"),
  ("Boston University Red", "#cc0000"),
  ("Bottle Green", "#006a4e"),
  ("Boysenberry", "#873260"),
  ("Brandeis Blue", "#0070ff"),
  ("Brass", "#b5a642"),
  ("Brick Red", "#cb4154"),
  ("Bright Cerulean", "#1dacd6"),
  ("Bright Green", "#66ff00"),
  ("Bright Lavender", "#bf94e4"),
  ("Bright Maroon", "#c32148"),
  ("Bright Pink", "#ff007f"),
  ("Bright Turquoise", "#08e8de"),
  ("Bright Ube", "#d19fe8"),
  ("Brilliant Lavender", "#f4bbff"),
  ("Brilliant Rose", "#ff55a3"),
  ("Brink Pink", "#fb607f"),
  ("British Racing Green", "#004225"),
  ("Bronze", "#cd7f32"),
  ("Brown (Traditional)", "#964b00"),
  ("Brown (Web)", "#a52a2a"),
  ("Bubble Gum", "#ffc1cc"),
  ("Bubbles", "#e7feff"),
  ("Buff", "#f0dc82"),
  ("Bulgarian Rose", "#480607"),
  ("Burgundy", "#800020"),
  ("Burlywood", "#deb887"),
  ("Burnt Orange", "#c50"),
  ("Burnt Sienna", "#e97451"),
  ("Burnt Umber", "#8a3324"),
  ("Byzantine", "#bd33a4"),
  ("Byzantium", "#702963"),
  ("Cadet", "#536872"),
  ("Cadet Blue", "#5f9ea0"),
  ("Cadet Grey", "#91a3b0"),
  ("Cadmium Green", "#006b3c"),
  ("Cadmium Orange", "#ed872d"),
  ("Cadmium Red", "#e30022"),
  ("Cadmium Yellow", "#fff600"),
  ("Café Au Lait", "#a67b5b"),
  ("Café Noir", "#4b3621"),
  ("Cal Poly Green", "#1e4d2b"),
  ("Cambridge Blue", "#a3c1ad"),
  ("Camel", "#c19a6b"),
  ("Cameo Pink", "#efbbcc"),
  ("Camouflage Green", "#78866b"),
  ("Canary Yellow", "#ffef00"),
  ("Candy Apple Red", "#ff0800"),
  ("Candy Pink", "#e4717a"),
  ("Capri", "#00bfff"),
  ("Caput Mortuum", "#592720"),
  ("Cardinal", "#c41e3a"),
  ("Caribbean Green", "#00cc99"),
  ("Carmine", "#960018"),
  ("Carmine (M&P)", "#d70040"),
  ("Carmine Pink", "#eb4c42"),
  ("Carmine Red", "#ff0038"),
  ("Carnation Pink", "#ffa6c9"),
  ("Carnelian", "#b31b1b"),
  ("Carolina Blue", "#99badd"),
  ("Carrot Orange", "#ed9121"),
  ("Catalina Blue", "#062a78"),
  ("Ceil", "#92a1cf"),
  ("Celadon", "#ace1af"),
  ("Celadon Blue", "#007ba7"),
  ("Celadon Green", "#2f847c"),
  ("Celeste (Colour)", "#b2ffff"),
  ("Celestial Blue", "#4997d0"),
  ("Cerise", "#de3163"),
  ("Cerise Pink", "#ec3b83"),
  ("Cerulean", "#007ba7"),
  ("Cerulean Blue", "#2a52be"),
  ("Cerulean Frost", "#6d9bc3"),
  ("Cg Blue", "#007aa5"),
  ("Cg Red", "#e03c31"),
  ("Chamoisee", "#a0785a"),
  ("Champagne", "#fad6a5"),
  ("Charcoal", "#36454f"),
  ("Charm Pink", "#e68fac"),
  ("Chartreuse (Traditional)", "#dfff00"),
  ("Chartreuse (Web)", "#7fff00"),
  ("Cherry", "#de3163"),
  ("Cherry Blossom Pink", "#ffb7c5"),
  ("Chestnut", "#cd5c5c"),
  ("China Pink", "#de6fa1"),
  ("China Rose", "#a8516e"),
  ("Chinese Red", "#aa381e"),
  ("Chocolate (Traditional)", "#7b3f00"),
  ("Chocolate (Web)", "#d2691e"),
  ("Chrome Yellow", "#ffa700"),
  ("Cinereous", "#98817b"),
  ("Cinnabar", "#e34234"),
  ("Cinnamon", "#d2691e"),
  ("Citrine", "#e4d00a"),
  ("Classic Rose", "#fbcce7"),
  ("Cobalt", "#0047ab"),
  ("Cocoa Brown", "#d2691e"),
  ("Coffee", "#6f4e37"),
  ("Columbia Blue", "#9bddff"),
  ("Congo Pink", "#f88379"),
  ("Cool Black", "#002e63"),
  ("Cool Grey", "#8c92ac"),
  ("Copper", "#b87333"),
  ("Copper (Crayola)", "#da8a67"),
  ("Copper Penny", "#ad6f69"),
  ("Copper Red", "#cb6d51"),
  ("Copper Rose", "#996666"),
  ("Coquelicot", "#ff3800"),
  ("Coral", "#ff7f50"),
  ("Coral Pink", "#f88379"),
  ("Coral Red", "#ff4040"),
  ("Cordovan", "#893f45"),
  ("Corn", "#fbec5d"),
  ("Cornell Red", "#b31b1b"),
  ("Cornflower Blue", "#6495ed"),
  ("Cornsilk", "#fff8dc"),
  ("Cosmic Latte", "#fff8e7"),
  ("Cotton Candy", "#ffbcd9"),
  ("Cream", "#fffdd0"),
  ("Crimson", "#dc143c"),
  ("Crimson Glory", "#be0032"),
  ("Cyan", "#00ffff"),
  ("Cyan (Process)", "#00b7eb"),
  ("Daffodil", "#ffff31"),
  ("Dandelion", "#f0e130"),
  ("Dark Blue", "#00008b"),
  ("Dark Brown", "#654321"),
  ("Dark Byzantium", "#5d3954"),
  ("Dark Candy Apple Red", "#a40000"),
  ("Dark Cerulean", "#08457e"),
  ("Dark Chestnut", "#986960"),
  ("Dark Coral", "#cd5b45"),
  ("Dark Cyan", "#008b8b"),
  ("Dark Electric Blue", "#536878"),
  ("Dark Goldenrod", "#b8860b"),
  ("Dark Gray", "#a9a9a9"),
  ("Dark Green", "#013220"),
  ("Dark Imperial Blue", "#00416a"),
  ("Dark Jungle Green", "#1a2421"),
  ("Dark Khaki", "#bdb76b"),
  ("Dark Lava", "#483c32"),
  ("Dark Lavender", "#734f96"),
  ("Dark Magenta", "#8b008b"),
  ("Dark Midnight Blue", "#003366"),
  ("Dark Olive Green", "#556b2f"),
  ("Dark Orange", "#ff8c00"),
  ("Dark Orchid", "#9932cc"),
  ("Dark Pastel Blue", "#779ecb"),
  ("Dark Pastel Green", "#03c03c"),
  ("Dark Pastel Purple", "#966fd6"),
  ("Dark Pastel Red", "#c23b22"),
  ("Dark Pink", "#e75480"),
  ("Dark Powder Blue", "#003399"),
  ("Dark Raspberry", "#872657"),
  ("Dark Red", "#8b0000"),
  ("Dark Salmon", "#e9967a"),
  ("Dark Scarlet", "#560319"),
  ("Dark Sea Green", "#8fbc8f"),
  ("Dark Sienna", "#3c1414"),
  ("Dark Slate Blue", "#483d8b"),
  ("Dark Slate Gray", "#2f4f4f"),
  ("Dark Spring Green", "#177245"),
  ("Dark Tan", "#918151"),
  ("Dark Tangerine", "#ffa812"),
  ("Dark Taupe", "#483c32"),
  ("Dark Terra Cotta", "#cc4e5c"),
  ("Dark Turquoise", "#00ced1"),
  ("Dark Violet", "#9400d3"),
  ("Dark Yellow", "#9b870c"),
  ("Dartmouth Green", "#00703c"),
  ("Davy Grey", "#555555"),
  ("Debian Red", "#d70a53"),
  ("Deep Carmine", "#a9203e"),
  ("Deep Carmine Pink", "#ef3038"),
  ("Deep Carrot Orange", "#e9692c"),
  ("Deep Cerise", "#da3287"),
  ("Deep Champagne", "#fad6a5"),
  ("Deep Chestnut", "#b94e48"),
  ("Deep Coffee", "#704241"),
  ("Deep Fuchsia", "#c154c1"),
  ("Deep Jungle Green", "#004b49"),
  ("Deep Lilac", "#9955bb"),
  ("Deep Magenta", "#cc00cc"),
  ("Deep Peach", "#ffcba4"),
  ("Deep Pink", "#ff1493"),
  ("Deep Ruby", "#843f5b"),
  ("Deep Saffron", "#f93"),
  ("Deep Sky Blue", "#00bfff"),
  ("Deep Tuscan Red", "#66424d"),
  ("Denim", "#1560bd"),
  ("Desert", "#c19a6b"),
  ("Desert Sand", "#edc9af"),
  ("Dim Gray", "#696969"),
  ("Dodger Blue", "#1e90ff"),
  ("Dogwood Rose", "#d71868"),
  ("Dollar Bill", "#85bb65"),
  ("Drab", "#967117"),
  ("Duke Blue", "#00009c"),
  ("Earth Yellow", "#e1a95f"),
  ("Ebony", "#555d50"),
  ("Ecru", "#c2b280"),
  ("Eggplant", "#614051"),
  ("Eggshell", "#f0ead6"),
  ("Egyptian Blue", "#1034a6"),
  ("Electric Blue", "#7df9ff"),
  ("Electric Crimson", "#ff003f"),
  ("Electric Cyan", "#00ffff"),
  ("Electric Green", "#00ff00"),
  ("Electric Indigo", "#6f00ff"),
  ("Electric Lavender", "#f4bbff"),
  ("Electric Lime", "#ccff00"),
  ("Electric Purple", "#bf00ff"),
  ("Electric Ultramarine", "#3f00ff"),
  ("Electric Violet", "#8f00ff"),
  ("Electric Yellow", "#ffff00"),
  ("Emerald", "#50c878"),
  ("English Lavender", "#b48395"),
  ("Eton Blue", "#96c8a2"),
  ("Fallow", "#c19a6b"),
  ("Falu Red", "#801818"),
  ("Fandango", "#b53389"),
  ("Fashion Fuchsia", "#f400a1"),
  ("Fawn", "#e5aa70"),
  ("Feldgrau", "#4d5d53"),
  ("Fern Green", "#4f7942"),
  ("Ferrari Red", "#ff2800"),
  ("Field Drab", "#6c541e"),
  ("Fire Engine Red", "#ce2029"),
  ("Firebrick", "#b22222"),
  ("Flame", "#e25822"),
  ("Flamingo Pink", "#fc8eac"),
  ("Flavescent", "#f7e98e"),
  ("Flax", "#eedc82"),
  ("Floral White", "#fffaf0"),
  ("Fluorescent Orange", "#ffbf00"),
  ("Fluorescent Pink", "#ff1493"),
  ("Fluorescent Yellow", "#ccff00"),
  ("Folly", "#ff004f"),
  ("Forest Green (Traditional)", "#014421"),
  ("Forest Green (Web)", "#228b22"),
  ("French Beige", "#a67b5b"),
  ("French Blue", "#0072bb"),
  ("French Lilac", "#86608e"),
  ("French Lime", "#ccff00"),
  ("French Raspberry", "#c72c48"),
  ("French Rose", "#f64a8a"),
  ("Fuchsia", "#ff00ff"),
  ("Fuchsia (Crayola)", "#c154c1"),
  ("Fuchsia Pink", "#ff77ff"),
  ("Fuchsia Rose", "#c74375"),
  ("Fulvous", "#e48400"),
  ("Fuzzy Wuzzy", "#cc6666"),
  ("Gainsboro", "#dcdcdc"),
  ("Gamboge", "#e49b0f"),
  ("Ghost White", "#f8f8ff"),
  ("Ginger", "#b06500"),
  ("Glaucous", "#6082b6"),
  ("Glitter", "#e6e8fa"),
  ("Gold (Metallic)", "#d4af37"),
  ("Gold (Web) (Golden)", "#ffd700"),
  ("Golden Brown", "#996515"),
  ("Golden Poppy", "#fcc200"),
  ("Golden Yellow", "#ffdf00"),
  ("Goldenrod", "#daa520"),
  ("Granny Smith Apple", "#a8e4a0"),
  ("Gray", "#808080"),
  ("Gray-Asparagus", "#465945"),
  ("Gray (Html/Css Gray)", "#808080"),
  ("Gray (X11 Gray)", "#bebebe"),
  ("Green (Color Wheel) (X11 Green)", "#00ff00"),
  ("Green (Crayola)", "#1cac78"),
  ("Green (Html/Css Green)", "#008000"),
  ("Green (Munsell)", "#00a877"),
  ("Green (Ncs)", "#009f6b"),
  ("Green (Pigment)", "#00a550"),
  ("Green (Ryb)", "#66b032"),
  ("Green-Yellow", "#adff2f"),
  ("Grullo", "#a99a86"),
  ("Guppie Green", "#00ff7f"),
  ("Halayà úBe", "#663854"),
  ("Han Blue", "#446ccf"),
  ("Han Purple", "#5218fa"),
  ("Hansa Yellow", "#e9d66b"),
  ("Harlequin", "#3fff00"),
  ("Harvard Crimson", "#c90016"),
  ("Harvest Gold", "#da9100"),
  ("Heart Gold", "#808000"),
  ("Heliotrope", "#df73ff"),
  ("Hollywood Cerise", "#f400a1"),
  ("Honeydew", "#f0fff0"),
  ("Honolulu Blue", "#007fbf"),
  ("Hooker Green", "#49796b"),
  ("Hot Magenta", "#ff1dce"),
  ("Hot Pink", "#ff69b4"),
  ("Hunter Green", "#355e3b"),
  ("Iceberg", "#71a6d2"),
  ("Icterine", "#fcf75e"),
  ("Imperial Blue", "#002395"),
  ("Inchworm", "#b2ec5d"),
  ("India Green", "#138808"),
  ("Indian Red", "#cd5c5c"),
  ("Indian Yellow", "#e3a857"),
  ("Indigo", "#6f00ff"),
  ("Indigo (Dye)", "#00416a"),
  ("Indigo (Web)", "#4b0082"),
  ("International Klein Blue", "#002fa7"),
  ("International Orange (Aerospace)", "#ff4f00"),
  ("International Orange (Engineering)", "#ba160c"),
  ("International Orange (Golden Gate Bridge)", "#c0362c"),
  ("Iris", "#5a4fcf"),
  ("Isabelline", "#f4f0ec"),
  ("Islamic Green", "#009000"),
  ("Ivory", "#fffff0"),
  ("Jade", "#00a86b"),
  ("Jasmine", "#f8de7e"),
  ("Jasper", "#d73b3e"),
  ("Jazzberry Jam", "#a50b5e"),
  ("Jet", "#343434"),
  ("Jonquil", "#fada5e"),
  ("June Bud", "#bdda57"),
  ("Jungle Green", "#29ab87"),
  ("Kelly Green", "#4cbb17"),
  ("Kenyan Copper", "#7c1c05"),
  ("Khaki (Html/Css) (Khaki)", "#c3b091"),
  ("Khaki (X11) (Light Khaki)", "#f0e68c"),
  ("Ku Crimson", "#e8000d"),
  ("La Salle Green", "#087830"),
  ("Languid Lavender", "#d6cadd"),
  ("Lapis Lazuli", "#26619c"),
  ("Laser Lemon", "#fefe22"),
  ("Laurel Green", "#a9ba9d"),
  ("Lava", "#cf1020"),
  ("Lavender Blue", "#ccccff"),
  ("Lavender Blush", "#fff0f5"),
  ("Lavender (Floral)", "#b57edc"),
  ("Lavender Gray", "#c4c3d0"),
  ("Lavender Indigo", "#9457eb"),
  ("Lavender Magenta", "#ee82ee"),
  ("Lavender Mist", "#e6e6fa"),
  ("Lavender Pink", "#fbaed2"),
  ("Lavender Purple", "#967bb6"),
  ("Lavender Rose", "#fba0e3"),
  ("Lavender (Web)", "#e6e6fa"),
  ("Lawn Green", "#7cfc00"),
  ("Lemon", "#fff700"),
  ("Lemon Chiffon", "#fffacd"),
  ("Lemon Lime", "#e3ff00"),
  ("Licorice", "#1a1110"),
  ("Light Apricot", "#fdd5b1"),
  ("Light Blue", "#add8e6"),
  ("Light Brown", "#b5651d"),
  ("Light Carmine Pink", "#e66771"),
  ("Light Coral", "#f08080"),
  ("Light Cornflower Blue", "#93ccea"),
  ("Light Crimson", "#f56991"),
  ("Light Cyan", "#e0ffff"),
  ("Light Fuchsia Pink", "#f984ef"),
  ("Light Goldenrod Yellow", "#fafad2"),
  ("Light Gray", "#d3d3d3"),
  ("Light Green", "#90ee90"),
  ("Light Khaki", "#f0e68c"),
  ("Light Pastel Purple", "#b19cd9"),
  ("Light Pink", "#ffb6c1"),
  ("Light Red Ochre", "#e97451"),
  ("Light Salmon", "#ffa07a"),
  ("Light Salmon Pink", "#ff9999"),
  ("Light Sea Green", "#20b2aa"),
  ("Light Sky Blue", "#87cefa"),
  ("Light Slate Gray", "#778899"),
  ("Light Taupe", "#b38b6d"),
  ("Light Thulian Pink", "#e68fac"),
  ("Light Yellow", "#ffffe0"),
  ("Lilac", "#c8a2c8"),
  ("Lime (Color Wheel)", "#bfff00"),
  ("Lime Green", "#32cd32"),
  ("Lime (Web) (X11 Green)", "#00ff00"),
  ("Limerick", "#9dc209"),
  ("Lincoln Green", "#195905"),
  ("Linen", "#faf0e6"),
  ("Lion", "#c19a6b"),
  ("Little Boy Blue", "#6ca0dc"),
  ("Liver", "#534b4f"),
  ("Lust", "#e62020"),
  ("Magenta", "#ff00ff"),
  ("Magenta (Dye)", "#ca1f7b"),
  ("Magenta (Process)", "#ff0090"),
  ("Magic Mint", "#aaf0d1"),
  ("Magnolia", "#f8f4ff"),
  ("Mahogany", "#c04000"),
  ("Maize", "#fbec5d"),
  ("Majorelle Blue", "#6050dc"),
  ("Malachite", "#0bda51"),
  ("Manatee", "#979aaa"),
  ("Mango Tango", "#ff8243"),
  ("Mantis", "#74c365"),
  ("Mardi Gras", "#880085"),
  ("Maroon (Crayola)", "#c32148"),
  ("Maroon (Html/Css)", "#800000"),
  ("Maroon (X11)", "#b03060"),
  ("Mauve", "#e0b0ff"),
  ("Mauve Taupe", "#915f6d"),
  ("Mauvelous", "#ef98aa"),
  ("Maya Blue", "#73c2fb"),
  ("Meat Brown", "#e5b73b"),
  ("Medium Aquamarine", "#66ddaa"),
  ("Medium Blue", "#0000cd"),
  ("Medium Candy Apple Red", "#e2062c"),
  ("Medium Carmine", "#af4035"),
  ("Medium Champagne", "#f3e5ab"),
  ("Medium Electric Blue", "#035096"),
  ("Medium Jungle Green", "#1c352d"),
  ("Medium Lavender Magenta", "#dda0dd"),
  ("Medium Orchid", "#ba55d3"),
  ("Medium Persian Blue", "#0067a5"),
  ("Medium Purple", "#9370db"),
  ("Medium Red-Violet", "#bb3385"),
  ("Medium Ruby", "#aa4069"),
  ("Medium Sea Green", "#3cb371"),
  ("Medium Slate Blue", "#7b68ee"),
  ("Medium Spring Bud", "#c9dc87"),
  ("Medium Spring Green", "#00fa9a"),
  ("Medium Taupe", "#674c47"),
  ("Medium Turquoise", "#48d1cc"),
  ("Medium Tuscan Red", "#79443b"),
  ("Medium Vermilion", "#d9603b"),
  ("Medium Violet-Red", "#c71585"),
  ("Mellow Apricot", "#f8b878"),
  ("Mellow Yellow", "#f8de7e"),
  ("Melon", "#fdbcb4"),
  ("Midnight Blue", "#191970"),
  ("Midnight Green (Eagle Green)", "#004953"),
  ("Mikado Yellow", "#ffc40c"),
  ("Mint", "#3eb489"),
  ("Mint Cream", "#f5fffa"),
  ("Mint Green", "#98ff98"),
  ("Misty Rose", "#ffe4e1"),
  ("Moccasin", "#faebd7"),
  ("Mode Beige", "#967117"),
  ("Moonstone Blue", "#73a9c2"),
  ("Mordant Red 19", "#ae0c00"),
  ("Moss Green", "#addfad"),
  ("Mountain Meadow", "#30ba8f"),
  ("Mountbatten Pink", "#997a8d"),
  ("Msu Green", "#18453b"),
  ("Mulberry", "#c54b8c"),
  ("Mustard", "#ffdb58"),
  ("Myrtle", "#21421e"),
  ("Nadeshiko Pink", "#f6adc6"),
  ("Napier Green", "#2a8000"),
  ("Naples Yellow", "#fada5e"),
  ("Navajo White", "#ffdead"),
  ("Navy Blue", "#000080"),
  ("Neon Carrot", "#ffa343"),
  ("Neon Fuchsia", "#fe4164"),
  ("Neon Green", "#39ff14"),
  ("New York Pink", "#d7837f"),
  ("Non-Photo Blue", "#a4dded"),
  ("North Texas Green", "#059033"),
  ("Ocean Boat Blue", "#0077be"),
  ("Ochre", "#cc7722"),
  ("Office Green", "#008000"),
  ("Old Gold", "#cfb53b"),
  ("Old Lace", "#fdf5e6"),
  ("Old Lavender", "#796878"),
  ("Old Mauve", "#673147"),
  ("Old Rose", "#c08081"),
  ("Olive", "#808000"),
  ("Olive Drab #7", "#3c341f"),
  ("Olive Drab (Web) (Olive Drab #3)", "#6b8e23"),
  ("Olivine", "#9ab973"),
  ("Onyx", "#353839"),
  ("Opera Mauve", "#b784a7"),
  ("Orange (Color Wheel)", "#ff7f00"),
  ("Orange Peel", "#ff9f00"),
  ("Orange-Red", "#ff4500"),
  ("Orange (Ryb)", "#fb9902"),
  ("Orange (Web Color)", "#ffa500"),
  ("Orchid", "#da70d6"),
  ("Otter Brown", "#654321"),
  ("Ou Crimson Red", "#900"),
  ("Outer Space", "#414a4c"),
  ("Outrageous Orange", "#ff6e4a"),
  ("Oxford Blue", "#002147"),
  ("Pakistan Green", "#006600"),
  ("Palatinate Blue", "#273be2"),
  ("Palatinate Purple", "#682860"),
  ("Pale Aqua", "#bcd4e6"),
  ("Pale Blue", "#afeeee"),
  ("Pale Brown", "#987654"),
  ("Pale Carmine", "#af4035"),
  ("Pale Cerulean", "#9bc4e2"),
  ("Pale Chestnut", "#ddadaf"),
  ("Pale Copper", "#da8a67"),
  ("Pale Cornflower Blue", "#abcdef"),
  ("Pale Gold", "#e6be8a"),
  ("Pale Goldenrod", "#eee8aa"),
  ("Pale Green", "#98fb98"),
  ("Pale Lavender", "#dcd0ff"),
  ("Pale Magenta", "#f984e5"),
  ("Pale Pink", "#fadadd"),
  ("Pale Plum", "#dda0dd"),
  ("Pale Red-Violet", "#db7093"),
  ("Pale Robin Egg Blue", "#96ded1"),
  ("Pale Silver", "#c9c0bb"),
  ("Pale Spring Bud", "#ecebbd"),
  ("Pale Taupe", "#bc987e"),
  ("Pale Violet-Red", "#db7093"),
  ("Pansy Purple", "#78184a"),
  ("Papaya Whip", "#ffefd5"),
  ("Paris Green", "#50c878"),
  ("Pastel Blue", "#aec6cf"),
  ("Pastel Brown", "#836953"),
  ("Pastel Gray", "#cfcfc4"),
  ("Pastel Green", "#77dd77"),
  ("Pastel Magenta", "#f49ac2"),
  ("Pastel Orange", "#ffb347"),
  ("Pastel Pink", "#dea5a4"),
  ("Pastel Purple", "#b39eb5"),
  ("Pastel Red", "#ff6961"),
  ("Pastel Violet", "#cb99c9"),
  ("Pastel Yellow", "#fdfd96"),
  ("Patriarch", "#800080"),
  ("Payne Grey", "#536878"),
  ("Peach", "#ffe5b4"),
  ("Peach (Crayola)", "#ffcba4"),
  ("Peach-Orange", "#ffcc99"),
  ("Peach Puff", "#ffdab9"),
  ("Peach-Yellow", "#fadfad"),
  ("Pear", "#d1e231"),
  ("Pearl", "#eae0c8"),
  ("Pearl Aqua", "#88d8c0"),
  ("Pearly Purple", "#b768a2"),
  ("Peridot", "#e6e200"),
  ("Periwinkle", "#ccccff"),
  ("Persian Blue", "#1c39bb"),
  ("Persian Green", "#00a693"),
  ("Persian Indigo", "#32127a"),
  ("Persian Orange", "#d99058"),
  ("Persian Pink", "#f77fbe"),
  ("Persian Plum", "#701c1c"),
  ("Persian Red", "#cc3333"),
  ("Persian Rose", "#fe28a2"),
  ("Persimmon", "#ec5800"),
  ("Peru", "#cd853f"),
  ("Phlox", "#df00ff"),
  ("Phthalo Blue", "#000f89"),
  ("Phthalo Green", "#123524"),
  ("Piggy Pink", "#fddde6"),
  ("Pine Green", "#01796f"),
  ("Pink", "#ffc0cb"),
  ("Pink Lace", "#ffddf4"),
  ("Pink-Orange", "#f96"),
  ("Pink Pearl", "#e7accf"),
  ("Pink Sherbet", "#f78fa7"),
  ("Pistachio", "#93c572"),
  ("Platinum", "#e5e4e2"),
  ("Plum (Traditional)", "#8e4585"),
  ("Plum (Web)", "#dda0dd"),
  ("Portland Orange", "#ff5a36"),
  ("Powder Blue (Web)", "#b0e0e6"),
  ("Princeton Orange", "#ff8f00"),
  ("Prune", "#701c1c"),
  ("Prussian Blue", "#003153"),
  ("Psychedelic Purple", "#df00ff"),
  ("Puce", "#cc8899"),
  ("Pumpkin", "#ff7518"),
  ("Purple Heart", "#69359c"),
  ("Purple (Html/Css)", "#800080"),
  ("Purple Mountain Majesty", "#9678b6"),
  ("Purple (Munsell)", "#9f00c5"),
  ("Purple Pizzazz", "#fe4eda"),
  ("Purple Taupe", "#50404d"),
  ("Purple (X11)", "#a020f0"),
  ("Quartz", "#51484f"),
  ("Rackley", "#5d8aa8"),
  ("Radical Red", "#ff355e"),
  ("Rajah", "#fbab60"),
  ("Raspberry", "#e30b5d"),
  ("Raspberry Glace", "#915f6d"),
  ("Raspberry Pink", "#e25098"),
  ("Raspberry Rose", "#b3446c"),
  ("Raw Umber", "#826644"),
  ("Razzle Dazzle Rose", "#ff33cc"),
  ("Razzmatazz", "#e3256b"),
  ("Red", "#ff0000"),
  ("Red-Brown", "#a52a2a"),
  ("Red Devil", "#860111"),
  ("Red (Munsell)", "#f2003c"),
  ("Red (Ncs)", "#c40233"),
  ("Red-Orange", "#ff5349"),
  ("Red (Pigment)", "#ed1c24"),
  ("Red (Ryb)", "#fe2712"),
  ("Red-Violet", "#c71585"),
  ("Redwood", "#ab4e52"),
  ("Regalia", "#522d80"),
  ("Resolution Blue", "#002387"),
  ("Rich Black", "#004040"),
  ("Rich Brilliant Lavender", "#f1a7fe"),
  ("Rich Carmine", "#d70040"),
  ("Rich Electric Blue", "#0892d0"),
  ("Rich Lavender", "#a76bcf"),
  ("Rich Lilac", "#b666d2"),
  ("Rich Maroon", "#b03060"),
  ("Rifle Green", "#414833"),
  ("Robin Egg Blue", "#0cc"),
  ("Rose", "#ff007f"),
  ("Rose Bonbon", "#f9429e"),
  ("Rose Ebony", "#674846"),
  ("Rose Gold", "#b76e79"),
  ("Rose Madder", "#e32636"),
  ("Rose Pink", "#f6c"),
  ("Rose Quartz", "#aa98a9"),
  ("Rose Taupe", "#905d5d"),
  ("Rose Vale", "#ab4e52"),
  ("Rosewood", "#65000b"),
  ("Rosso Corsa", "#d40000"),
  ("Rosy Brown", "#bc8f8f"),
  ("Royal Azure", "#0038a8"),
  ("Royal Blue (Traditional)", "#002366"),
  ("Royal Blue (Web)", "#4169e1"),
  ("Royal Fuchsia", "#ca2c92"),
  ("Royal Purple", "#7851a9"),
  ("Royal Yellow", "#fada5e"),
  ("Rubine Red", "#d10056"),
  ("Ruby", "#e0115f"),
  ("Ruby Red", "#9b111e"),
  ("Ruddy", "#ff0028"),
  ("Ruddy Brown", "#bb6528"),
  ("Ruddy Pink", "#e18e96"),
  ("Rufous", "#a81c07"),
  ("Russet", "#80461b"),
  ("Rust", "#b7410e"),
  ("Rusty Red", "#da2c43"),
  ("Sacramento State Green", "#00563f"),
  ("Saddle Brown", "#8b4513"),
  ("Safety Orange (Blaze Orange)", "#ff6700"),
  ("Saffron", "#f4c430"),
  ("Salmon", "#ff8c69"),
  ("Salmon Pink", "#ff91a4"),
  ("Sand", "#c2b280"),
  ("Sand Dune", "#967117"),
  ("Sandstorm", "#ecd540"),
  ("Sandy Brown", "#f4a460"),
  ("Sandy Taupe", "#967117"),
  ("Sangria", "#92000a"),
  ("Sap Green", "#507d2a"),
  ("Sapphire", "#0f52ba"),
  ("Sapphire Blue", "#0067a5"),
  ("Satin Sheen Gold", "#cba135"),
  ("Scarlet", "#ff2400"),
  ("Scarlet (Crayola)", "#fd0e35"),
  ("School Bus Yellow", "#ffd800"),
  ("Screamin Green", "#76ff7a"),
  ("Sea Blue", "#006994"),
  ("Sea Green", "#2e8b57"),
  ("Seal Brown", "#321414"),
  ("Seashell", "#fff5ee"),
  ("Selective Yellow", "#ffba00"),
  ("Sepia", "#704214"),
  ("Shadow", "#8a795d"),
  ("Shamrock Green", "#009e60"),
  ("Shocking Pink", "#fc0fc0"),
  ("Shocking Pink (Crayola)", "#ff6fff"),
  ("Sienna", "#882d17"),
  ("Silver", "#c0c0c0"),
  ("Sinopia", "#cb410b"),
  ("Skobeloff", "#007474"),
  ("Sky Blue", "#87ceeb"),
  ("Sky Magenta", "#cf71af"),
  ("Slate Blue", "#6a5acd"),
  ("Slate Gray", "#708090"),
  ("Smalt (Dark Powder Blue)", "#039"),
  ("Smokey Topaz", "#933d41"),
  ("Smoky Black", "#100c08"),
  ("Snow", "#fffafa"),
  ("Spiro Disco Ball", "#0fc0fc"),
  ("Spring Bud", "#a7fc00"),
  ("Spring Green", "#00ff7f"),
  ("St. Patrick Blue", "#23297a"),
  ("Steel Blue", "#4682b4"),
  ("Stil De Grain Yellow", "#fada5e"),
  ("Stizza", "#900"),
  ("Stormcloud", "#4f666a"),
  ("Straw", "#e4d96f"),
  ("Sunglow", "#ffcc33"),
  ("Sunset", "#fad6a5"),
  ("Tan", "#d2b48c"),
  ("Tangelo", "#f94d00"),
  ("Tangerine", "#f28500"),
  ("Tangerine Yellow", "#ffcc00"),
  ("Tango Pink", "#e4717a"),
  ("Taupe", "#483c32"),
  ("Taupe Gray", "#8b8589"),
  ("Tea Green", "#d0f0c0"),
  ("Tea Rose (Orange)", "#f88379"),
  ("Tea Rose (Rose)", "#f4c2c2"),
  ("Teal", "#008080"),
  ("Teal Blue", "#367588"),
  ("Teal Green", "#00827f"),
  ("Telemagenta", "#cf3476"),
  ("Tenné (Tawny)", "#cd5700"),
  ("Terra Cotta", "#e2725b"),
  ("Thistle", "#d8bfd8"),
  ("Thulian Pink", "#de6fa1"),
  ("Tickle Me Pink", "#fc89ac"),
  ("Tiffany Blue", "#0abab5"),
  ("Tiger Eye", "#e08d3c"),
  ("Timberwolf", "#dbd7d2"),
  ("Titanium Yellow", "#eee600"),
  ("Tomato", "#ff6347"),
  ("Toolbox", "#746cc0"),
  ("Topaz", "#ffc87c"),
  ("Tractor Red", "#fd0e35"),
  ("Trolley Grey", "#808080"),
  ("Tropical Rain Forest", "#00755e"),
  ("True Blue", "#0073cf"),
  ("Tufts Blue", "#417dc1"),
  ("Tumbleweed", "#deaa88"),
  ("Turkish Rose", "#b57281"),
  ("Turquoise", "#30d5c8"),
  ("Turquoise Blue", "#00ffef"),
  ("Turquoise Green", "#a0d6b4"),
  ("Tuscan Red", "#7c4848"),
  ("Twilight Lavender", "#8a496b"),
  ("Tyrian Purple", "#66023c"),
  ("Ua Blue", "#0033aa"),
  ("Ua Red", "#d9004c"),
  ("Ube", "#8878c3"),
  ("Ucla Blue", "#536895"),
  ("Ucla Gold", "#ffb300"),
  ("Ufo Green", "#3cd070"),
  ("Ultra Pink", "#ff6fff"),
  ("Ultramarine", "#120a8f"),
  ("Ultramarine Blue", "#4166f5"),
  ("Umber", "#635147"),
  ("Unbleached Silk", "#ffddca"),
  ("United Nations Blue", "#5b92e5"),
  ("University Of California Gold", "#b78727"),
  ("Unmellow Yellow", "#ffff66"),
  ("Up Forest Green", "#014421"),
  ("Up Maroon", "#7b1113"),
  ("Upsdell Red", "#ae2029"),
  ("Urobilin", "#e1ad21"),
  ("Usafa Blue", "#004f98"),
  ("Usc Cardinal", "#990000"),
  ("Usc Gold", "#ffcc00"),
  ("Utah Crimson", "#d3003f"),
  ("Vanilla", "#f3e5ab"),
  ("Vegas Gold", "#c5b358"),
  ("Venetian Red", "#c80815"),
  ("Verdigris", "#43b3ae"),
  ("Vermilion (Cinnabar)", "#e34234"),
  ("Vermilion (Plochere)", "#d9603b"),
  ("Veronica", "#a020f0"),
  ("Violet", "#8f00ff"),
  ("Violet-Blue", "#324ab2"),
  ("Violet (Color Wheel)", "#7f00ff"),
  ("Violet (Ryb)", "#8601af"),
  ("Violet (Web)", "#ee82ee"),
  ("Viridian", "#40826d"),
  ("Vivid Auburn", "#922724"),
  ("Vivid Burgundy", "#9f1d35"),
  ("Vivid Cerise", "#da1d81"),
  ("Vivid Tangerine", "#ffa089"),
  ("Vivid Violet", "#9f00ff"),
  ("Warm Black", "#004242"),
  ("Waterspout", "#a4f4f9"),
  ("Wenge", "#645452"),
  ("Wheat", "#f5deb3"),
  ("White", "#ffffff"),
  ("White Smoke", "#f5f5f5"),
  ("Wild Blue Yonder", "#a2add0"),
  ("Wild Strawberry", "#ff43a4"),
  ("Wild Watermelon", "#fc6c85"),
  ("Wine", "#722f37"),
  ("Wine Dregs", "#673147"),
  ("Wisteria", "#c9a0dc"),
  ("Wood Brown", "#c19a6b"),
  ("Xanadu", "#738678"),
  ("Yale Blue", "#0f4d92"),
  ("Yellow", "#ffff00"),
  ("Yellow-Green", "#9acd32"),
  ("Yellow (Munsell)", "#efcc00"),
  ("Yellow (Ncs)", "#ffd300"),
  ("Yellow Orange", "#ffae42"),
  ("Yellow (Process)", "#ffef00"),
  ("Yellow (Ryb)", "#fefe33"),
  ("Zaffre", "#0014a8"),
  ("Zinnwaldite Brown", "#2c1608")]

-- CSS 2 used the same list as HTML 4.
def CSS2_NAMES_TO_HEX : List (String × String) := HTML4_NAMES_TO_HEX

-- CSS 2.1 added orange.
def CSS21_NAMES_TO_HEX : List (String × String) :=
  ("orange", "#ffa500") :: HTML4_NAMES_TO_HEX

/-- `_reversedict`: swap keys and values. A Python dict comprehension keeps the
last binding written for a duplicated key, and the reverse tables are used only
through key lookup afterwards, so the swapped list is reversed to make
`List.lookup` (which returns the first match) return the last binding in
source order, exactly as the Python dict does. -/
def _reversedict (d : List (String × String)) : List (String × String) :=
  (d.map fun p => (p.2, p.1)).reverse

def HTML4_HEX_TO_NAMES : List (String × String) := _reversedict HTML4_NAMES_TO_HEX

def CSS2_HEX_TO_NAMES : List (String × String) := HTML4_HEX_TO_NAMES

def CSS21_HEX_TO_NAMES : List (String × String) := _reversedict CSS21_NAMES_TO_HEX

/-- The seven explicit assignments `CSS3_HEX_TO_NAMES[hex] = name` made after
the reverse table is built, manually pinning the gray spellings. An assignment
overwrites the looked-up value for that key, so they are modelled by
prepending (again: `List.lookup` returns the first match). -/
def grayOverrides : List (String × String) := [
  ("#a9a9a9", "darkgray"),
  ("#2f4f4f", "darkslategray"),
  ("#696969", "dimgray"),
  ("#808080", "gray"),
  ("#d3d3d3", "lightgray"),
  ("#778899", "lightslategray"),
  ("#708090", "slategray")]

def CSS3_HEX_TO_NAMES : List (String × String) :=
  grayOverrides ++ _reversedict CSS3_NAMES_TO_HEX

def COLOR_HEXA_HEX_TO_NAMES : List (String × String) :=
  _reversedict COLOR_HEXA_NAMES_TO_HEX

def COLOR_HEXA : String := "color_hexa"
def HTML4 : String := "html4"
def CSS2 : String := "css2"
def CSS21 : String := "css21"
def CSS3 : String := "css3"

/-- `SUPPORTED_SPECIFICATIONS` exactly as in the source: note that it does not
contain `COLOR_HEXA`. -/
def SUPPORTED_SPECIFICATIONS : List String := [HTML4, CSS2, CSS21, CSS3]

-- Normalization functions.

/-- The group of `HEX_COLOR_RE`: 3 or 6 hex digits filling the candidate. -/
def hexGroupMatch (ds : List Char) : Option (List Char) :=
  if (ds.length = 3 ∨ ds.length = 6) ∧ ds.all isHexDigit = true then some ds
  else none

/-- `HEX_COLOR_RE.match(s)`: a match of the anchored pattern of a number sign
followed by 3 or 6 hex digits, returning the digit group. The final dollar
anchor of the pattern also matches just before a single trailing newline,
which is modelled by dropping such a newline before matching the group. -/
def hexColorMatch (s : List Char) : Option (List Char) :=
  match s with
  | [] => none
  | c :: rest =>
    if c = '#' then
      hexGroupMatch (if rest.getLast? = some '\n' then rest.dropLast else rest)
    else none

/-- `normalize_hex`: normalize a hexadecimal color value to 6 digits, lowercase. -/
def normalize_hex (hex_value : String) : Except ColorError String :=
  match hexColorMatch hex_value.toList with
  | none => Except.error ColorError.invalidFormat
  | some hex_digits =>
    let hex_digits := if hex_digits.length = 3 then
      hex_digits.flatMap (fun s => [s, s]) else hex_digits
    Except.ok (String.mk ('#' :: hex_digits.map Char.toLower))

/-- `_normalize_integer_rgb`: clip an integer into the range 0-255 inclusive. -/
def _normalize_integer_rgb (value : Int) : Int :=
  if value < 0 then 0 else if value > 255 then 255 else value

/-- `normalize_integer_triplet`. -/
def normalize_integer_triplet (t : Int × Int × Int) : Int × Int × Int :=
  (_normalize_integer_rgb t.1, _normalize_integer_rgb t.2.1,
    _normalize_integer_rgb t.2.2)

-- Conversions from color names to various formats.

/-- The dict literal in `name_to_hex` dispatching the spec tag to a table,
in source order. Note it has a key, `COLOR_HEXA`, that the guard on
`SUPPORTED_SPECIFICATIONS` makes unreachable. -/
def namesTableFor : List (String × List (String × String)) := [
  (CSS2, CSS2_NAMES_TO_HEX),
  (CSS21, CSS21_NAMES_TO_HEX),
  (CSS3, CSS3_NAMES_TO_HEX),
  (HTML4, HTML4_NAMES_TO_HEX),
  (COLOR_HEXA, COLOR_HEXA_NAMES_TO_HEX)]

/-- `name_to_hex`: convert a color name to a normalized hexadecimal value. -/
def name_to_hex (name : String) (spec : String) : Except ColorError String :=
  if ¬ SUPPORTED_SPECIFICATIONS.contains spec then
    Except.error (ColorError.unsupportedSpecification spec)
  else
    match namesTableFor.lookup spec with
    | none => Except.error ColorError.keyError
    | some table =>
      match table.lookup (pyLower name) with
      | none => Except.error (ColorError.nameNotFound name spec)
      | some hex_value => Except.ok hex_value

-- Conversions from hexadecimal color values to various formats.

/-- The dict literal in `hex_to_name` dispatching the spec tag to a reverse
table, in source order. -/
def hexTableFor : List (String × List (String × String)) := [
  (CSS2, CSS2_HEX_TO_NAMES),
  (CSS21, CSS21_HEX_TO_NAMES),
  (CSS3, CSS3_HEX_TO_NAMES),
  (HTML4, HTML4_HEX_TO_NAMES),
  (COLOR_HEXA, COLOR_HEXA_HEX_TO_NAMES)]

/-- `hex_to_name`: convert a hexadecimal value to its normalized color name. -/
def hex_to_name (hex_value : String) (spec : String) : Except ColorError String :=
  if ¬ SUPPORTED_SPECIFICATIONS.contains spec then
    Except.error (ColorError.unsupportedSpecification spec)
  else
    match normalize_hex hex_value with
    | Except.error e => Except.error e
    | Except.ok normalized =>
      match hexTableFor.lookup spec with
      | none => Except.error ColorError.keyError
      | some table =>
        match table.lookup normalized with
        | none => Except.error (ColorError.hexNotFound hex_value spec)
        | some name => Except.ok name

/-- `hex_to_rgb`: parse the normalized value as one base-16 integer and split
it into three bytes with shifts and masks, as the source does. -/
def hex_to_rgb (hex_value : String) : Except ColorError (Int × Int × Int) :=
  match normalize_hex hex_value with
  | Except.error e => Except.error e
  | Except.ok normalized =>
    match intBase16 (normalized.toList.drop 1) with
    | Except.error e => Except.error e
    | Except.ok int_value =>
      Except.ok ((int_value >>> 16 : Nat), ((int_value >>> 8) &&& 0xFF : Nat),
        (int_value &&& 0xFF : Nat))

/-- The lowercase hexadecimal digit characters, indexed 0-15. -/
def hexDigitChar (n : Nat) : Char := "0123456789abcdef".toList.getD n '0'

/-- Lowercase hexadecimal digits of `n` (fuel-based; `natHex` supplies enough). -/
def natHexAux : Nat → Nat → List Char
  | 0, _ => []
  | fuel + 1, n =>
    if n < 16 then [hexDigitChar n]
    else natHexAux fuel (n / 16) ++ [hexDigitChar (n % 16)]

def natHex (n : Nat) : List Char := natHexAux (n + 1) n

/-- Left-pad a digit list with the character 0 to width `w`. -/
def zeroPad (w : Nat) (ds : List Char) : List Char :=
  List.replicate (w - ds.length) '0' ++ ds

/-- The Python format specifier for two-or-more lowercase hex digits,
zero-padded, applied to a nonnegative integer. -/
def format02x (n : Nat) : List Char := zeroPad 2 (natHex n)

/-- `rgb_to_hex`: normalize the triplet, then format each byte as two
lowercase hex digits after a number sign. -/
def rgb_to_hex (rgb_triplet : Int × Int × Int) : String :=
  let n := normalize_integer_triplet rgb_triplet
  String.mk ('#' :: (format02x n.1.toNat ++ format02x n.2.1.toNat ++
    format02x n.2.2.toNat))
-- Percentage triplets. Python floats are modelled by exact rationals; see the
-- file header for why this is faithful at every point the theorems evaluate.
-- The arithmetic is written with the normalizing constructors `mkRat` and
-- `Rat.divInt` rather than the arithmetic instances of `ℚ`, which are sealed
-- against definitional unfolding; each helper below is extensionally the
-- corresponding field operation.

/-- Rational multiplication, in normalizing-constructor form. -/
def qMul (a b : ℚ) : ℚ := mkRat (a.num * b.num) (a.den * b.den)

/-- Rational division (`qDiv a b = a / b`; division by zero never arises:
the divisors used below are 100 and powers of ten). -/
def qDiv (a b : ℚ) : ℚ := Rat.divInt (a.num * (b.den : Int)) (b.num * (a.den : Int))

/-- Rational subtraction, in normalizing-constructor form. -/
def qSub (a b : ℚ) : ℚ := mkRat (a.num * (b.den : Int) - b.num * (a.den : Int)) (a.den * b.den)

/-- The strict-order test on `ℚ` as a boolean (`Rat.blt` decides `<`). -/
def qLt (a b : ℚ) : Bool := Rat.blt a b

/-- Decimal digits of `n` (fuel-based; `natDecimal` supplies enough). -/
def natDecimalAux : Nat → Nat → List Char
  | 0, _ => []
  | fuel + 1, n =>
    if n < 10 then [Char.ofNat (48 + n)]
    else natDecimalAux fuel (n / 10) ++ [Char.ofNat (48 + n % 10)]

def natDecimal (n : Nat) : List Char := natDecimalAux (n + 1) n

/-- A run of ASCII decimal digit characters read as a number; `none` if empty
or containing a non-digit. -/
def digitsToNat (l : List Char) : Option Nat :=
  if l ≠ [] ∧ l.all Char.isDigit = true then
    some (l.foldl (fun a c => a * 10 + (c.toNat - 48)) 0)
  else none

/-- The plain unsigned decimal literals accepted by Python `float(s)` and
`int(s)`: digits, optionally with a decimal point (either side of which may be
empty, but not both). The exponent, underscore, infinity and nan forms of
CPython are not modelled; no call the theorems make produces them. -/
def parseDecimalUnsigned (l : List Char) : Option ℚ :=
  let intPart := l.takeWhile (fun c => c ≠ '.')
  match l.drop intPart.length with
  | [] => (digitsToNat intPart).map fun n => (n : ℚ)
  | '.' :: fracPart =>
    if intPart = [] ∧ fracPart = [] then none
    else if intPart.all Char.isDigit = true ∧ fracPart.all Char.isDigit = true then
      some (mkRat (((digitsToNat intPart).getD 0) * 10 ^ fracPart.length +
        ((digitsToNat fracPart).getD 0)) (10 ^ fracPart.length))
    else none
  | _ => none

/-- Decimal literals with an optional sign, as `float(s)` / `int(s)` read them. -/
def parseDecimal (l : List Char) : Option ℚ :=
  match l with
  | '-' :: rest => (parseDecimalUnsigned rest).map Neg.neg
  | '+' :: rest => parseDecimalUnsigned rest
  | _ => parseDecimalUnsigned l

/-- Python `str(x)` for the numbers serialized by `_normalize_percent_rgb`:
for an int, its decimal digits; for a float, the shortest decimal
representation with at least one digit after the point. (Only nonnegative
values are ever serialized there, negatives having been clamped first.) -/
def pyNumRepr (isFloat : Bool) (q : ℚ) : List Char :=
  if isFloat then
    let k := max 1 ((((List.range 18).find? fun j =>
      (qMul q ((10 ^ j : Nat) : ℚ)).den = 1)).getD 17)
    let n := (qMul q ((10 ^ k : Nat) : ℚ)).floor.toNat
    natDecimal (n / 10 ^ k) ++ '.' :: zeroPad k (natDecimal (n % 10 ^ k))
  else natDecimal q.floor.toNat

/-- `_normalize_percent_rgb`: take the part of the string before a percent
sign, read it as an int (no decimal point) or float (with one), clip it to
0-100, and re-serialize it followed by a percent sign. -/
def _normalize_percent_rgb (value : String) : Except ColorError String :=
  let v := value.toList.takeWhile (fun c => c ≠ '%')
  match parseDecimal v with
  | none => Except.error ColorError.invalidNumber
  | some percent =>
    if qLt percent 0 then Except.ok "0%"
    else if qLt 100 percent then Except.ok "100%"
    else Except.ok (String.mk (pyNumRepr (v.contains '.') percent ++ ['%']))

/-- `normalize_percent_triplet`. -/
def normalize_percent_triplet (t : String × String × String) :
    Except ColorError (String × String × String) :=
  match _normalize_percent_rgb t.1, _normalize_percent_rgb t.2.1,
      _normalize_percent_rgb t.2.2 with
  | Except.ok r, Except.ok g, Except.ok b => Except.ok (r, g, b)
  | Except.error e, _, _ => Except.error e
  | _, Except.error e, _ => Except.error e
  | _, _, Except.error e => Except.error e

/-- Python `round(x)` on a number: round half to even, as CPython does. -/
def roundHalfEven (q : ℚ) : Int :=
  let f := q.floor
  if qLt (qSub q (f : ℚ)) (mkRat 1 2) then f
  else if qLt (mkRat 1 2) (qSub q (f : ℚ)) then f + 1
  else if f % 2 = 0 then f else f + 1

/-- `_percent_to_integer`: `int(round(float(percent.split("%")[0]) / 100 * 255))`. -/
def _percent_to_integer (percent : String) : Except ColorError Int :=
  match parseDecimal (percent.toList.takeWhile (fun c => c ≠ '%')) with
  | none => Except.error ColorError.invalidNumber
  | some q => Except.ok (roundHalfEven (qMul (qDiv q 100) 255))

/-- `rgb_percent_to_rgb`: normalize, then convert each component. -/
def rgb_percent_to_rgb (rgb_percent_triplet : String × String × String) :
    Except ColorError (Int × Int × Int) :=
  match normalize_percent_triplet rgb_percent_triplet with
  | Except.error e => Except.error e
  | Except.ok n =>
    match _percent_to_integer n.1, _percent_to_integer n.2.1,
        _percent_to_integer n.2.2 with
    | Except.ok r, Except.ok g, Except.ok b => Except.ok (r, g, b)
    | Except.error e, _, _ => Except.error e
    | _, Except.error e, _ => Except.error e
    | _, _, Except.error e => Except.error e

/-- The `specials` dict of `rgb_to_rgb_percent`, in source order. -/
def specials : List (Int × String) := [
  (255, "100%"),
  (128, "50%"),
  (64, "25%"),
  (32, "12.5%"),
  (16, "6.25%"),
  (0, "0%")]

/-- The Python format specifier for a float with exactly two digits after the
decimal point: correct rounding (half to even) of the value to hundredths.
Only nonnegative values reach it here. -/
def pyFormat02f (q : ℚ) : List Char :=
  let n := (roundHalfEven (qMul q 100)).toNat
  natDecimal (n / 100) ++ '.' :: zeroPad 2 (natDecimal (n % 100))

/-- One component of `rgb_to_rgb_percent`: the specials dict consulted with
`.get`, with the two-decimal formatting of `d / 255.0 * 100` as the default. -/
def rgbPercentComponent (d : Int) : String :=
  match specials.lookup d with
  | some s => s
  | none => String.mk (pyFormat02f (qMul (qDiv (d : ℚ) 255) 100) ++ ['%'])

/-- `rgb_to_rgb_percent`: normalize the triplet, then map each component. -/
def rgb_to_rgb_percent (rgb_triplet : Int × Int × Int) : String × String × String :=
  let n := normalize_integer_triplet rgb_triplet
  (rgbPercentComponent n.1, rgbPercentComponent n.2.1, rgbPercentComponent n.2.2)
-- HTML5 color algorithms. As in the source, these are literal transcriptions
-- of the numbered steps of section 2.4.6 of HTML5; the step numbers in the
-- comments are those of the source.

/-- Interpret three component strings as hexadecimal numbers and return the
resulting simple color (steps 6-9 of the simple algorithm and steps 16-20 of
the legacy algorithm; the error is unreachable, both algorithms having
guaranteed nonempty all-hex components by then). -/
def parseComponents (red green blue : List Char) : Except ColorError (Nat × Nat × Nat) :=
  match intBase16 red, intBase16 green, intBase16 blue with
  | Except.ok r, Except.ok g, Except.ok b => Except.ok (r, g, b)
  | _, _, _ => Except.error ColorError.invalidIntLiteral

/-- `html5_parse_simple_color`. -/
def html5_parse_simple_color (input : List Char) : Except ColorError (Nat × Nat × Nat) :=
  -- 2. If input is not exactly seven characters long, then return an error.
  if input.length ≠ 7 then Except.error ColorError.invalidLength
  -- 3. If the first character in input is not U+0023, then return an error.
  else if input.head? ≠ some '#' then Except.error ColorError.missingHashMark
  -- 4. If the last six characters of input are not all ASCII hex digits,
  --    then return an error.
  else if ¬ (input.drop 1).all isHexDigit = true then
    Except.error ColorError.invalidHexDigits
  -- 6.-9. Interpret the three pairs of characters after the first as
  --       hexadecimal numbers; return the resulting simple color.
  else parseComponents ((input.drop 1).take 2) ((input.drop 3).take 2)
    ((input.drop 5).take 2)

/-- `html5_serialize_simple_color`: two lowercase zero-padded hex digits per
component after a number sign. -/
def html5_serialize_simple_color (simple_color : Nat × Nat × Nat) : String :=
  String.mk ('#' :: (format02x simple_color.1 ++ format02x simple_color.2.1 ++
    format02x simple_color.2.2))

/-- The number of characters step 11 appends: while the length is zero or not
a multiple of three, a zero character is appended. -/
def pad3 (n : Nat) : Nat := if n = 0 then 3 else (3 - n % 3) % 3

/-- The loop of step 14: while `length` is greater than two and the first
character of each component is a zero character, remove that character from
all three components and reduce `length` by one. -/
def trimZeros : Nat → List Char → List Char → List Char →
    Nat × List Char × List Char × List Char
  | n + 3, red, green, blue =>
    if red.head? = some '0' ∧ green.head? = some '0' ∧ blue.head? = some '0' then
      trimZeros (n + 2) red.tail green.tail blue.tail
    else (n + 3, red, green, blue)
  | length, red, green, blue => (length, red, green, blue)

-- Steps 12-20 of the legacy algorithm are sequential reassignments of the
-- state (length, red, green, blue); each step below passes the updated state
-- to the next step.

/-- Step 15 of `html5_parse_legacy_color`: if length is still greater than
two, truncate each component to its first two characters; then (steps 16-20)
interpret each component as a hexadecimal number. -/
def legacyStep15 (length : Nat) (red green blue : List Char) :
    Except ColorError (Nat × Nat × Nat) :=
  if length > 2 then parseComponents (red.take 2) (green.take 2) (blue.take 2)
  else parseComponents red green blue

/-- Step 14 of `html5_parse_legacy_color`: the joint leading-zero trimming
loop, whose final state goes to step 15. -/
def legacyStep14 (length : Nat) (red green blue : List Char) :
    Except ColorError (Nat × Nat × Nat) :=
  match trimZeros length red green blue with
  | (length, red, green, blue) => legacyStep15 length red green blue

/-- Step 13 of `html5_parse_legacy_color`: if length is greater than 8,
remove the leading length-8 characters of each component and let length
be 8. -/
def legacyStep13 (length : Nat) (red green blue : List Char) :
    Except ColorError (Nat × Nat × Nat) :=
  if length > 8 then
    legacyStep14 8 (red.drop (length - 8)) (green.drop (length - 8))
      (blue.drop (length - 8))
  else legacyStep14 length red green blue

/-- Step 12 of `html5_parse_legacy_color`, applied to the string produced by
steps 7-11: split it into three strings of equal length. -/
def legacySplit (input : List Char) : Except ColorError (Nat × Nat × Nat) :=
  let length := input.length / 3
  legacyStep13 length (input.take length) ((input.drop length).take length)
    (input.drop (length * 2))

/-- Steps 7-11 of `html5_parse_legacy_color` (the path taken when the input
is neither a keyword nor a 4-character hash form), followed by `legacySplit`. -/
def legacyNumericPath (input : List Char) : Except ColorError (Nat × Nat × Nat) :=
  -- 7. Replace any character with a code point greater than U+FFFF with the
  --    two-character string 00.
  let input := input.flatMap (fun c => if c.toNat > 0xFFFF then ['0', '0'] else [c])
  -- 8. If input is longer than 128 characters, truncate it to 128.
  let input := if input.length > 128 then input.take 128 else input
  -- 9. If the first character in input is U+0023, remove it.
  let input := if input.head? = some '#' then input.drop 1 else input
  -- 10. Replace any character that is not an ASCII hex digit with U+0030.
  let input := input.map (fun c => if isHexDigit c then c else '0')
  -- 11. While the length is zero or not a multiple of three, append U+0030.
  let input := input ++ List.replicate (pad3 input.length) '0'
  legacySplit input

/-- `html5_parse_legacy_color`. -/
def html5_parse_legacy_color (input : List Char) : Except ColorError (Nat × Nat × Nat) :=
  -- 2. If input is the empty string, then return an error.
  if input = [] then Except.error ColorError.emptyInput
  else
    -- 3. Strip leading and trailing whitespace from input.
    let input := pyStrip input
    -- 4. If input is an ASCII case-insensitive match for "transparent",
    --    then return an error.
    if input.map Char.toLower = "transparent".toList then
      Except.error ColorError.transparentNotAllowed
    else
      -- 5. If input matches a CSS3/SVG color keyword, return the simple
      --    color parse of that keyword's hex value.
      match CSS3_NAMES_TO_HEX.lookup (String.mk (input.map Char.toLower)) with
      | some keyword_hex => html5_parse_simple_color keyword_hex.toList
      | none =>
        -- 6. If input is four characters long, starts with U+0023, and its
        --    last three characters are ASCII hex digits, interpret each of
        --    them as a hexadecimal digit and multiply by 17.
        if input.length = 4 ∧ input.head? = some '#' ∧
            (input.drop 1).all isHexDigit = true then
          match parseComponents ((input.drop 1).take 1) ((input.drop 2).take 1)
              ((input.drop 3).take 1) with
          | Except.ok (r, g, b) => Except.ok (r * 17, g * 17, b * 17)
          | Except.error e => Except.error e
        else legacyNumericPath input
-- Definitions used to state the claims.

/-- The number of iterations the step-14 loop of `html5_parse_legacy_color`
performs, described independently of the loop: the length of the longest
common leading run of zero characters of the three components, capped at
`len - 2`. -/
def jointK (len : Nat) (r g b : List Char) : Nat :=
  min (min ((r.takeWhile fun c => c == '0').length)
    (min ((g.takeWhile fun c => c == '0').length)
      ((b.takeWhile fun c => c == '0').length))) (len - 2)

/-- The sixteen lowercase hexadecimal digit characters. -/
def lowercaseHexDigits : List Char := "0123456789abcdef".toList

/-- The six component values with exact percentage representations. -/
def specialValues : List Int := [0, 16, 32, 64, 128, 255]

/-- The precision rule as the specification states it: the six enumerated
values map to their literal percentage strings; every other value in 0-255
maps to its value divided by 255 and scaled to 100, formatted to exactly two
decimal places, followed by a percent sign. -/
def specRulePercent (v : Nat) : String :=
  if v = 0 then "0%"
  else if v = 16 then "6.25%"
  else if v = 32 then "12.5%"
  else if v = 64 then "25%"
  else if v = 128 then "50%"
  else if v = 255 then "100%"
  else String.mk (pyFormat02f (qMul (qDiv ((v : Nat) : ℚ) 255) 100) ++ ['%'])
-- Helper lemmas shared by the claim theorems.

theorem hexVal_le (c : Char) : hexVal c ≤ 15 := by
  unfold hexVal
  split
  · omega
  · split
    · omega
    · split <;> omega

theorem hexFoldl_lt (s : List Char) (h : s.all isHexDigit = true) :
    ∀ a : Nat, s.foldl (fun a c => a * 16 + hexVal c) a < (a + 1) * 16 ^ s.length := by
  induction s with
  | nil => intro a; simp
  | cons c t ih =>
    intro a
    simp only [List.all_cons, Bool.and_eq_true] at h
    have hc := hexVal_le c
    have := ih h.2 (a * 16 + hexVal c)
    calc (c :: t).foldl (fun a c => a * 16 + hexVal c) a
        = t.foldl (fun a c => a * 16 + hexVal c) (a * 16 + hexVal c) := by
          simp [List.foldl_cons]
      _ < (a * 16 + hexVal c + 1) * 16 ^ t.length := this
      _ ≤ ((a + 1) * 16) * 16 ^ t.length := by
          have : a * 16 + hexVal c + 1 ≤ (a + 1) * 16 := by omega
          exact Nat.mul_le_mul_right _ this
      _ = (a + 1) * 16 ^ (c :: t).length := by
          simp [List.length_cons, Nat.pow_succ]; ring

theorem intBase16_ok (s : List Char) (hne : s ≠ [])
    (hhex : s.all isHexDigit = true) :
    intBase16 s = Except.ok (s.foldl (fun a c => a * 16 + hexVal c) 0) := by
  simp [intBase16, hne, hhex]

theorem intBase16_ok_le (s : List Char) (n : Nat) (hlen : s.length ≤ 2)
    (h : intBase16 s = Except.ok n) : n ≤ 255 := by
  unfold intBase16 at h
  split at h
  · rename_i hcond
    have hlt := hexFoldl_lt s hcond.2 0
    simp only [Except.ok.injEq] at h
    subst h
    have h16 : (16 : Nat) ^ s.length ≤ 256 := by
      calc (16 : Nat) ^ s.length ≤ 16 ^ 2 := Nat.pow_le_pow_right (by omega) hlen
        _ = 256 := by norm_num
    omega
  · exact absurd h (by simp)

theorem mem_of_lookup_eq_some {α : Type} [BEq α] [LawfulBEq α] {β : Type}
    {l : List (α × β)} {k : α} {v : β} (h : l.lookup k = some v) : (k, v) ∈ l := by
  induction l with
  | nil => simp [List.lookup] at h
  | cons p t ih =>
    rw [List.lookup] at h
    by_cases hk : k == p.1
    · simp only [hk, if_pos] at h
      simp only [Option.some.injEq] at h
      have hkp : k = p.1 := eq_of_beq hk
      have hp : (k, v) = p := by rw [hkp, ← h]
      rw [hp]
      exact List.mem_cons_self _ _
    · simp only [hk] at h
      right
      exact ih h

-- The step-14 loop: an extensional characterization.

theorem takeWhile_len_zero {l : List Char} (h : l.head? ≠ some '0') :
    (l.takeWhile fun c => c == '0') = [] := by
  cases l with
  | nil => rfl
  | cons c t =>
    simp only [List.head?_cons, ne_eq, Option.some.injEq] at h
    simp [List.takeWhile_cons, h]

theorem trimZeros_eq (len : Nat) : ∀ r g b : List Char,
    trimZeros len r g b = (len - jointK len r g b, r.drop (jointK len r g b),
      g.drop (jointK len r g b), b.drop (jointK len r g b)) := by
  induction len using Nat.strong_induction_on with
  | _ len ih =>
    match len with
    | 0 => intro r g b; simp [trimZeros, jointK]
    | 1 => intro r g b; simp [trimZeros, jointK]
    | 2 => intro r g b; simp [trimZeros, jointK]
    | n + 3 =>
      intro r g b
      by_cases h : r.head? = some '0' ∧ g.head? = some '0' ∧ b.head? = some '0'
      · obtain ⟨hr, hg, hb⟩ := h
        obtain ⟨r', rfl⟩ : ∃ r', r = '0' :: r' := by
          cases r with
          | nil => simp at hr
          | cons c t =>
            simp only [List.head?_cons, Option.some.injEq] at hr
            exact ⟨t, by rw [hr]⟩
        obtain ⟨g', rfl⟩ : ∃ g', g = '0' :: g' := by
          cases g with
          | nil => simp at hg
          | cons c t =>
            simp only [List.head?_cons, Option.some.injEq] at hg
            exact ⟨t, by rw [hg]⟩
        obtain ⟨b', rfl⟩ : ∃ b', b = '0' :: b' := by
          cases b with
          | nil => simp at hb
          | cons c t =>
            simp only [List.head?_cons, Option.some.injEq] at hb
            exact ⟨t, by rw [hb]⟩
        have hstep : trimZeros (n + 3) ('0' :: r') ('0' :: g') ('0' :: b') =
            trimZeros (n + 2) r' g' b' := by
          simp [trimZeros]
        rw [hstep, ih (n + 2) (by omega) r' g' b']
        have hk : jointK (n + 3) ('0' :: r') ('0' :: g') ('0' :: b') =
            jointK (n + 2) r' g' b' + 1 := by
          simp only [jointK, List.takeWhile_cons, beq_self_eq_true, if_true,
            List.length_cons]
          omega
        rw [hk]
        simp only [List.drop_succ_cons]
        have harith : n + 2 - jointK (n + 2) r' g' b' =
            n + 3 - (jointK (n + 2) r' g' b' + 1) := by omega
        rw [harith]
      · have hk : jointK (n + 3) r g b = 0 := by
          rcases not_and_or.mp h with hfail | h2
          · simp [jointK, takeWhile_len_zero hfail]
          · rcases not_and_or.mp h2 with hfail | hfail
            · simp only [jointK, takeWhile_len_zero hfail, List.length_nil]
              omega
            · simp only [jointK, takeWhile_len_zero hfail, List.length_nil]
              omega
        have hstep : trimZeros (n + 3) r g b = (n + 3, r, g, b) := by
          simp only [trimZeros, if_neg h]
        rw [hstep, hk]
        simp
-- Claim C1. The source defines the vendor table and wires it into both
-- dispatch dicts, but `SUPPORTED_SPECIFICATIONS` omits `COLOR_HEXA`, so the
-- guard in every lookup function rejects it before the dispatch is consulted.

/-- C1: the vendor specification tag is rejected by the lookup functions even
though its table is present and wired into their dispatch: the name White is
in the vendor table, yet both `name_to_hex` and `hex_to_name` fail on the
`COLOR_HEXA` tag with the unsupported-specification error, because
`SUPPORTED_SPECIFICATIONS` enumerates only the four standard tags. -/
theorem claim1_color_hexa_rejected :
    COLOR_HEXA_NAMES_TO_HEX.lookup "White" = some "#ffffff"
    ∧ namesTableFor.lookup COLOR_HEXA = some COLOR_HEXA_NAMES_TO_HEX
    ∧ name_to_hex "White" COLOR_HEXA =
        Except.error (ColorError.unsupportedSpecification "color_hexa")
    ∧ hex_to_name "#ffffff" COLOR_HEXA =
        Except.error (ColorError.unsupportedSpecification "color_hexa")
    ∧ SUPPORTED_SPECIFICATIONS = ["html4", "css2", "css21", "css3"] := by
  refine ⟨by decide, by decide, by decide, by decide, by decide⟩

-- Claim C3.

/-- C3: the leading-zero trimming loop of `html5_parse_legacy_color` trims one
character from all three components simultaneously per iteration, iterating
exactly while the shared length exceeds two and every component starts
with the zero character: its result drops the longest common leading zero run
(capped at length minus two) from each component. In particular trimming is
not per-component: on the input 00a00b1bc, whose blue component 1bc does not
start with a zero, nothing is trimmed and the result is (0, 0, 27). -/
theorem claim3_joint_trim :
    (∀ (len : Nat) (r g b : List Char),
      trimZeros len r g b = (len - jointK len r g b, r.drop (jointK len r g b),
        g.drop (jointK len r g b), b.drop (jointK len r g b)))
    ∧ html5_parse_legacy_color "00a00b1bc".toList = Except.ok (0, 0, 27) := by
  exact ⟨trimZeros_eq, by decide⟩

-- Claim C9. The seven gray-family collisions are pinned, but the other two
-- collision hexes in the CSS3 table are not: their reverse entry comes from
-- `_reversedict` alone and flips when the underlying table order flips.

/-- C9 counterexample: the hex value 00ffff is shared by the two CSS3 names
aqua and cyan, yet it is not among the explicitly pinned reverse entries: its
resolution to cyan is inherited from the iteration order of the name table,
and building the same reverse table from the reversed name table resolves the
same hex to aqua instead. So not every shared hex is pinned independently of
table order, contrary to the claim. -/
theorem claim9_counterexample :
    (CSS3_NAMES_TO_HEX.filter (fun p => p.2 == "#00ffff")).map Prod.fst =
      ["aqua", "cyan"]
    ∧ grayOverrides.lookup "#00ffff" = none
    ∧ CSS3_HEX_TO_NAMES.lookup "#00ffff" = some "cyan"
    ∧ (grayOverrides ++ _reversedict CSS3_NAMES_TO_HEX.reverse).lookup "#00ffff" =
        some "aqua" := by
  refine ⟨by decide, by decide, by decide, by decide⟩

/-- C9 amended: the seven gray-family collision hexes are explicitly pinned to
the gray spelling, so `hex_to_name` resolves a9a9a9 under CSS3 to darkgray
(not darkgrey); the two remaining CSS3 collision hexes (00ffff, ff00ff) are
resolved by the insertion order of the name table, to cyan and magenta. -/
theorem claim9_pinned_grays :
    hex_to_name "#a9a9a9" CSS3 = Except.ok "darkgray"
    ∧ CSS3_HEX_TO_NAMES.lookup "#a9a9a9" = some "darkgray"
    ∧ CSS3_HEX_TO_NAMES.lookup "#2f4f4f" = some "darkslategray"
    ∧ CSS3_HEX_TO_NAMES.lookup "#696969" = some "dimgray"
    ∧ CSS3_HEX_TO_NAMES.lookup "#808080" = some "gray"
    ∧ CSS3_HEX_TO_NAMES.lookup "#d3d3d3" = some "lightgray"
    ∧ CSS3_HEX_TO_NAMES.lookup "#778899" = some "lightslategray"
    ∧ CSS3_HEX_TO_NAMES.lookup "#708090" = some "slategray"
    ∧ CSS3_HEX_TO_NAMES.lookup "#00ffff" = some "cyan"
    ∧ CSS3_HEX_TO_NAMES.lookup "#ff00ff" = some "magenta" := by
  refine ⟨by decide, by decide, by decide, by decide, by decide, by decide,
    by decide, by decide, by decide, by decide⟩

/-- C3 witness: at components 00a, 00b, 01c the characterization applies and
the loop trims exactly one shared leading zero. -/
theorem claim3_joint_trim_witness :
    trimZeros 3 ['0', '0', 'a'] ['0', '0', 'b'] ['0', '1', 'c'] =
      (2, ['0', 'a'], ['0', 'b'], ['1', 'c']) := by
  have h := claim3_joint_trim.1 3 ['0', '0', 'a'] ['0', '0', 'b'] ['0', '1', 'c']
  rw [h]
  decide
-- Machinery for the legacy algorithm: every path after the transparent check
-- produces a simple color whose components are bytes.

theorem intBase16_lt (s : List Char) (n : Nat)
    (h : intBase16 s = Except.ok n) : n < 16 ^ s.length := by
  unfold intBase16 at h
  split at h
  · rename_i hcond
    have hlt := hexFoldl_lt s hcond.2 0
    simp only [Except.ok.injEq] at h
    subst h
    simpa using hlt
  · exact absurd h (by simp)

theorem parseComponents_ok (r g b : List Char)
    (hr : r ≠ []) (hg : g ≠ []) (hb : b ≠ [])
    (hhr : r.all isHexDigit = true) (hhg : g.all isHexDigit = true)
    (hhb : b.all isHexDigit = true) :
    parseComponents r g b =
      Except.ok (r.foldl (fun a c => a * 16 + hexVal c) 0,
        g.foldl (fun a c => a * 16 + hexVal c) 0,
        b.foldl (fun a c => a * 16 + hexVal c) 0) := by
  unfold parseComponents
  rw [intBase16_ok r hr hhr, intBase16_ok g hg hhg, intBase16_ok b hb hhb]

theorem parseComponents_ok_inv (r g b : List Char) (x y z : Nat)
    (h : parseComponents r g b = Except.ok (x, y, z)) :
    intBase16 r = Except.ok x ∧ intBase16 g = Except.ok y ∧
      intBase16 b = Except.ok z := by
  unfold parseComponents at h
  split at h
  · rename_i hx hy hz
    simp only [Except.ok.injEq, Prod.mk.injEq] at h
    obtain ⟨h1, h2, h3⟩ := h
    exact ⟨h1 ▸ hx, h2 ▸ hy, h3 ▸ hz⟩
  · exact absurd h (by simp)

theorem all_hex_take (n : Nat) {l : List Char} (h : l.all isHexDigit = true) :
    (l.take n).all isHexDigit = true := by
  rw [List.all_eq_true] at h ⊢
  intro c hc
  exact h c (List.take_subset n l hc)

theorem all_hex_drop (n : Nat) {l : List Char} (h : l.all isHexDigit = true) :
    (l.drop n).all isHexDigit = true := by
  rw [List.all_eq_true] at h ⊢
  intro c hc
  exact h c (List.drop_subset n l hc)

theorem foldl_le_255 (s : List Char) (hhex : s.all isHexDigit = true)
    (hlen : s.length ≤ 2) :
    s.foldl (fun a c => a * 16 + hexVal c) 0 ≤ 255 := by
  have hlt := hexFoldl_lt s hhex 0
  have h16 : (16 : Nat) ^ s.length ≤ 256 := by
    calc (16 : Nat) ^ s.length ≤ 16 ^ 2 := Nat.pow_le_pow_right (by omega) hlen
      _ = 256 := by norm_num
  omega

/-- The string produced by steps 10 and 11 is all hex digits with positive
length divisible by three, for any input to those steps. -/
theorem padded_props (l : List Char) :
    (((l.map fun c => if isHexDigit c then c else '0') ++
        List.replicate (pad3 (l.map fun c => if isHexDigit c then c else '0').length)
          '0').all isHexDigit = true)
    ∧ ((l.map fun c => if isHexDigit c then c else '0') ++
        List.replicate (pad3 (l.map fun c => if isHexDigit c then c else '0').length)
          '0').length % 3 = 0
    ∧ 0 < ((l.map fun c => if isHexDigit c then c else '0') ++
        List.replicate (pad3 (l.map fun c => if isHexDigit c then c else '0').length)
          '0').length := by
  have h1 : (l.map fun c => if isHexDigit c then c else '0').all isHexDigit = true := by
    rw [List.all_eq_true]
    intro c hc
    obtain ⟨a, _, rfl⟩ := List.mem_map.mp hc
    by_cases ha : isHexDigit a
    · simp [ha]
    · simp only [if_neg ha]
      decide
  have h2 : ∀ k : Nat, (List.replicate k '0').all isHexDigit = true := by
    intro k
    rw [List.all_eq_true]
    intro c hc
    rw [List.eq_of_mem_replicate hc]
    decide
  refine ⟨?_, ?_, ?_⟩
  · rw [List.all_append, h1, h2]
    rfl
  · rw [List.length_append, List.length_replicate]
    unfold pad3
    split <;> omega
  · rw [List.length_append, List.length_replicate]
    unfold pad3
    split <;> omega

theorem legacyStep15_ok (len : Nat) (r g b : List Char) (hr : r.length = len)
    (hg : g.length = len) (hb : b.length = len) (hlen : 1 ≤ len)
    (hxr : r.all isHexDigit = true) (hxg : g.all isHexDigit = true)
    (hxb : b.all isHexDigit = true) :
    ∃ x y z : Nat, legacyStep15 len r g b = Except.ok (x, y, z) ∧
      x ≤ 255 ∧ y ≤ 255 ∧ z ≤ 255 := by
  unfold legacyStep15
  by_cases h15 : len > 2
  · simp only [if_pos h15]
    rw [parseComponents_ok _ _ _
      (by rw [← List.length_pos_iff_ne_nil, List.length_take]; omega)
      (by rw [← List.length_pos_iff_ne_nil, List.length_take]; omega)
      (by rw [← List.length_pos_iff_ne_nil, List.length_take]; omega)
      (all_hex_take 2 hxr) (all_hex_take 2 hxg) (all_hex_take 2 hxb)]
    refine ⟨_, _, _, rfl, ?_, ?_, ?_⟩
    · exact foldl_le_255 _ (all_hex_take 2 hxr) (by rw [List.length_take]; omega)
    · exact foldl_le_255 _ (all_hex_take 2 hxg) (by rw [List.length_take]; omega)
    · exact foldl_le_255 _ (all_hex_take 2 hxb) (by rw [List.length_take]; omega)
  · simp only [if_neg h15]
    rw [parseComponents_ok _ _ _
      (by rw [← List.length_pos_iff_ne_nil]; omega)
      (by rw [← List.length_pos_iff_ne_nil]; omega)
      (by rw [← List.length_pos_iff_ne_nil]; omega)
      hxr hxg hxb]
    refine ⟨_, _, _, rfl, ?_, ?_, ?_⟩
    · exact foldl_le_255 _ hxr (by omega)
    · exact foldl_le_255 _ hxg (by omega)
    · exact foldl_le_255 _ hxb (by omega)

theorem legacyStep14_ok (len : Nat) (r g b : List Char) (hr : r.length = len)
    (hg : g.length = len) (hb : b.length = len) (hlen : 1 ≤ len)
    (hxr : r.all isHexDigit = true) (hxg : g.all isHexDigit = true)
    (hxb : b.all isHexDigit = true) :
    ∃ x y z : Nat, legacyStep14 len r g b = Except.ok (x, y, z) ∧
      x ≤ 255 ∧ y ≤ 255 ∧ z ≤ 255 := by
  unfold legacyStep14
  rw [trimZeros_eq]
  have hkle : jointK len r g b ≤ len - 2 := Nat.min_le_right _ _
  exact legacyStep15_ok (len - jointK len r g b) _ _ _
    (by rw [List.length_drop, hr]) (by rw [List.length_drop, hg])
    (by rw [List.length_drop, hb]) (by omega)
    (all_hex_drop _ hxr) (all_hex_drop _ hxg) (all_hex_drop _ hxb)

theorem legacyStep13_ok (len : Nat) (r g b : List Char) (hr : r.length = len)
    (hg : g.length = len) (hb : b.length = len) (hlen : 1 ≤ len)
    (hxr : r.all isHexDigit = true) (hxg : g.all isHexDigit = true)
    (hxb : b.all isHexDigit = true) :
    ∃ x y z : Nat, legacyStep13 len r g b = Except.ok (x, y, z) ∧
      x ≤ 255 ∧ y ≤ 255 ∧ z ≤ 255 := by
  unfold legacyStep13
  by_cases h13 : len > 8
  · simp only [if_pos h13]
    exact legacyStep14_ok 8 _ _ _ (by rw [List.length_drop, hr]; omega)
      (by rw [List.length_drop, hg]; omega) (by rw [List.length_drop, hb]; omega)
      (by omega) (all_hex_drop _ hxr) (all_hex_drop _ hxg) (all_hex_drop _ hxb)
  · simp only [if_neg h13]
    exact legacyStep14_ok len r g b hr hg hb hlen hxr hxg hxb

theorem legacySplit_ok (s : List Char) (hhex : s.all isHexDigit = true)
    (hmod : s.length % 3 = 0) (hpos : 0 < s.length) :
    ∃ x y z : Nat, legacySplit s = Except.ok (x, y, z) ∧
      x ≤ 255 ∧ y ≤ 255 ∧ z ≤ 255 := by
  unfold legacySplit
  exact legacyStep13_ok (s.length / 3) _ _ _
    (by rw [List.length_take]; omega)
    (by rw [List.length_take, List.length_drop]; omega)
    (by rw [List.length_drop]; omega)
    (by omega)
    (all_hex_take _ hhex) (all_hex_take _ (all_hex_drop _ hhex))
    (all_hex_drop _ hhex)

theorem legacyNumericPath_ok (input : List Char) :
    ∃ x y z : Nat, legacyNumericPath input = Except.ok (x, y, z) ∧
      x ≤ 255 ∧ y ≤ 255 ∧ z ≤ 255 := by
  simp only [legacyNumericPath]
  exact legacySplit_ok _ (padded_props _).1 (padded_props _).2.1 (padded_props _).2.2

/-- Every hex value in the CSS3 table parses as a simple color (the keyword
branch of the legacy algorithm therefore never fails). -/
theorem css3_values_parse : CSS3_NAMES_TO_HEX.all
    (fun p => (html5_parse_simple_color p.2.toList).isOk) = true := by decide

theorem simple_ok_le (s : List Char) (x y z : Nat)
    (h : html5_parse_simple_color s = Except.ok (x, y, z)) :
    x ≤ 255 ∧ y ≤ 255 ∧ z ≤ 255 := by
  unfold html5_parse_simple_color at h
  split at h
  · exact absurd h (by simp)
  · split at h
    · exact absurd h (by simp)
    · split at h
      · exact absurd h (by simp)
      · obtain ⟨h1, h2, h3⟩ := parseComponents_ok_inv _ _ _ _ _ _ h
        refine ⟨?_, ?_, ?_⟩
        · exact intBase16_ok_le _ _ (by rw [List.length_take]; omega) h1
        · exact intBase16_ok_le _ _ (by rw [List.length_take]; omega) h2
        · exact intBase16_ok_le _ _ (by rw [List.length_take]; omega) h3

-- Claim C2.

/-- C2: `html5_parse_legacy_color` fails exactly on the empty string (the
empty-input error) and on strings whose whitespace-trimmed form is a
case-insensitive match for the transparency keyword (the dedicated error);
on every other string it returns some triplet: the algorithm is total on
non-empty, non-transparent input. -/
theorem claim2_legacy_total (input : List Char) :
    (input = [] → html5_parse_legacy_color input = Except.error ColorError.emptyInput)
    ∧ (input ≠ [] → (pyStrip input).map Char.toLower = "transparent".toList →
        html5_parse_legacy_color input = Except.error ColorError.transparentNotAllowed)
    ∧ (input ≠ [] → (pyStrip input).map Char.toLower ≠ "transparent".toList →
        ∃ t : Nat × Nat × Nat, html5_parse_legacy_color input = Except.ok t) := by
  refine ⟨?_, ?_, ?_⟩
  · intro h
    simp [html5_parse_legacy_color, h]
  · intro h1 h2
    simp [html5_parse_legacy_color, h1, h2]
  · intro h1 h2
    simp only [html5_parse_legacy_color, if_neg h1, if_neg h2]
    cases hlk : CSS3_NAMES_TO_HEX.lookup (String.mk ((pyStrip input).map Char.toLower)) with
    | some hx =>
      simp only [hlk]
      have hall := css3_values_parse
      rw [List.all_eq_true] at hall
      have hok := hall _ (mem_of_lookup_eq_some hlk)
      simp only at hok
      cases hres : html5_parse_simple_color hx.toList with
      | ok t => exact ⟨t, rfl⟩
      | error e =>
        rw [hres] at hok
        simp [Except.isOk, Except.toBool] at hok
    | none =>
      simp only [hlk]
      by_cases h4 : (pyStrip input).length = 4 ∧ (pyStrip input).head? = some '#' ∧
          ((pyStrip input).drop 1).all isHexDigit = true
      · simp only [if_pos h4]
        obtain ⟨hlen, _, hhex⟩ := h4
        have hd1 : ((pyStrip input).drop 1).length = 3 := by
          rw [List.length_drop, hlen]
        have hd2 : ((pyStrip input).drop 2).all isHexDigit = true := by
          have : (pyStrip input).drop 2 = ((pyStrip input).drop 1).drop 1 := by
            rw [List.drop_drop]
          rw [this]
          exact all_hex_drop 1 hhex
        have hd3 : ((pyStrip input).drop 3).all isHexDigit = true := by
          have : (pyStrip input).drop 3 = ((pyStrip input).drop 1).drop 2 := by
            rw [List.drop_drop]
          rw [this]
          exact all_hex_drop 2 hhex
        rw [parseComponents_ok _ _ _
          (by rw [← List.length_pos_iff_ne_nil, List.length_take]; omega)
          (by rw [← List.length_pos_iff_ne_nil, List.length_take, List.length_drop]; omega)
          (by rw [← List.length_pos_iff_ne_nil, List.length_take, List.length_drop]; omega)
          (all_hex_take 1 hhex) (all_hex_take 1 hd2) (all_hex_take 1 hd3)]
        exact ⟨_, rfl⟩
      · simp only [if_neg h4]
        obtain ⟨x, y, z, hok, _⟩ := legacyNumericPath_ok (pyStrip input)
        exact ⟨(x, y, z), hok⟩

/-- C2 witness: the string gibberish is neither empty nor transparent, and
parsing it succeeds. -/
theorem claim2_legacy_total_witness :
    ∃ t : Nat × Nat × Nat,
      html5_parse_legacy_color "gibberish".toList = Except.ok t :=
  (claim2_legacy_total "gibberish".toList).2.2 (by decide) (by decide)

-- Claim C10.

/-- C10: whenever `html5_parse_legacy_color` returns a triplet, each component
is at most 255 (components are naturals, so they are in the interval 0-255):
the keyword branch parses a 7-character hex value into bytes, the 4-character
branch multiplies a hex digit value by 17, and the general path parses
components of at most two hex digits. -/
theorem claim10_output_range (input : List Char) (x y z : Nat)
    (h : html5_parse_legacy_color input = Except.ok (x, y, z)) :
    x ≤ 255 ∧ y ≤ 255 ∧ z ≤ 255 := by
  by_cases h1 : input = []
  · simp [html5_parse_legacy_color, h1] at h
  · simp only [html5_parse_legacy_color, if_neg h1] at h
    by_cases h2 : (pyStrip input).map Char.toLower = "transparent".toList
    · rw [if_pos h2] at h
      exact absurd h (by simp)
    · rw [if_neg h2] at h
      cases hlk : CSS3_NAMES_TO_HEX.lookup
          (String.mk ((pyStrip input).map Char.toLower)) with
      | some hx =>
        rw [hlk] at h
        exact simple_ok_le _ _ _ _ h
      | none =>
        rw [hlk] at h
        by_cases h4 : (pyStrip input).length = 4 ∧ (pyStrip input).head? = some '#' ∧
            ((pyStrip input).drop 1).all isHexDigit = true
        · rw [if_pos h4] at h
          cases hpc : parseComponents (((pyStrip input).drop 1).take 1)
              (((pyStrip input).drop 2).take 1) (((pyStrip input).drop 3).take 1) with
          | ok t =>
            obtain ⟨r, gg, bb⟩ := t
            rw [hpc] at h
            have h2 : (Except.ok (r * 17, gg * 17, bb * 17) :
                Except ColorError (Nat × Nat × Nat)) = Except.ok (x, y, z) := h
            obtain ⟨hi1, hi2, hi3⟩ := parseComponents_ok_inv _ _ _ _ _ _ hpc
            have hr := intBase16_lt _ _ hi1
            have hg := intBase16_lt _ _ hi2
            have hb := intBase16_lt _ _ hi3
            have e1 : ((((pyStrip input).drop 1).take 1).length) ≤ 1 := by
              rw [List.length_take]; omega
            have e2 : ((((pyStrip input).drop 2).take 1).length) ≤ 1 := by
              rw [List.length_take]; omega
            have e3 : ((((pyStrip input).drop 3).take 1).length) ≤ 1 := by
              rw [List.length_take]; omega
            have p1 : (16 : Nat) ^ ((((pyStrip input).drop 1).take 1).length) ≤ 16 := by
              calc (16 : Nat) ^ ((((pyStrip input).drop 1).take 1).length)
                  ≤ 16 ^ 1 := Nat.pow_le_pow_right (by omega) e1
                _ = 16 := by norm_num
            have p2 : (16 : Nat) ^ ((((pyStrip input).drop 2).take 1).length) ≤ 16 := by
              calc (16 : Nat) ^ ((((pyStrip input).drop 2).take 1).length)
                  ≤ 16 ^ 1 := Nat.pow_le_pow_right (by omega) e2
                _ = 16 := by norm_num
            have p3 : (16 : Nat) ^ ((((pyStrip input).drop 3).take 1).length) ≤ 16 := by
              calc (16 : Nat) ^ ((((pyStrip input).drop 3).take 1).length)
                  ≤ 16 ^ 1 := Nat.pow_le_pow_right (by omega) e3
                _ = 16 := by norm_num
            simp only [Except.ok.injEq, Prod.mk.injEq] at h2
            obtain ⟨hx1, hy1, hz1⟩ := h2
            subst hx1; subst hy1; subst hz1
            omega
          | error e =>
            rw [hpc] at h
            have h2 : (Except.error e : Except ColorError (Nat × Nat × Nat)) =
                Except.ok (x, y, z) := h
            exact absurd h2 (by simp)
        · rw [if_neg h4] at h
          obtain ⟨x2, y2, z2, hok, b1, b2, b3⟩ := legacyNumericPath_ok (pyStrip input)
          rw [hok] at h
          simp only [Except.ok.injEq, Prod.mk.injEq] at h
          obtain ⟨hx1, hy1, hz1⟩ := h
          subst hx1; subst hy1; subst hz1
          exact ⟨b1, b2, b3⟩

/-- C10 witness: parsing the keyword red yields (255, 0, 0), whose components
are within range. -/
theorem claim10_output_range_witness :
    (255 : Nat) ≤ 255 ∧ (0 : Nat) ≤ 255 ∧ (0 : Nat) ≤ 255 :=
  claim10_output_range "red".toList 255 0 0 (by decide)
-- Claim C4.

/-- C4 counterexample: the round trip through `hex_to_rgb` and `rgb_to_hex`
lowercases: on the valid 6-digit value FF0000 written in uppercase it returns
the lowercase spelling, not the input. -/
theorem claim4_case_counterexample :
    (hex_to_rgb "#FF0000").map rgb_to_hex = Except.ok "#ff0000"
    ∧ "#ff0000" ≠ "#FF0000" := by
  refine ⟨by decide, by decide⟩

theorem lowerhex_facts : ∀ c ∈ lowercaseHexDigits,
    isHexDigit c = true ∧ Char.toLower c = c ∧ c ≠ '\n' := by decide

theorem format02x_pair : ∀ a ∈ lowercaseHexDigits, ∀ b ∈ lowercaseHexDigits,
    format02x (hexVal a * 16 + hexVal b) = [a, b] := by decide

theorem land_255 (n : Nat) : n &&& 255 = n % 256 := by
  apply Nat.eq_of_testBit_eq
  intro i
  have h256 : (256 : Nat) = 2 ^ 8 := by norm_num
  have h255 : (255 : Nat) = 2 ^ 8 - 1 := by norm_num
  rw [Nat.testBit_land, h256, Nat.testBit_mod_two_pow, h255,
    Nat.testBit_two_pow_sub_one]
  exact Bool.and_comm _ _

/-- C4 amended: for every valid 6-digit hexadecimal color string written with
lowercase digits, converting to an integer triplet and back returns the same
string. (For uppercase digits the round trip returns the lowercase
normalization instead; see the counterexample.) -/
theorem claim4_roundtrip_lowercase (c1 c2 c3 c4 c5 c6 : Char)
    (h1 : c1 ∈ lowercaseHexDigits) (h2 : c2 ∈ lowercaseHexDigits)
    (h3 : c3 ∈ lowercaseHexDigits) (h4 : c4 ∈ lowercaseHexDigits)
    (h5 : c5 ∈ lowercaseHexDigits) (h6 : c6 ∈ lowercaseHexDigits) :
    (hex_to_rgb (String.mk ['#', c1, c2, c3, c4, c5, c6])).map rgb_to_hex =
      Except.ok (String.mk ['#', c1, c2, c3, c4, c5, c6]) := by
  obtain ⟨hx1, hl1, hn1⟩ := lowerhex_facts c1 h1
  obtain ⟨hx2, hl2, hn2⟩ := lowerhex_facts c2 h2
  obtain ⟨hx3, hl3, hn3⟩ := lowerhex_facts c3 h3
  obtain ⟨hx4, hl4, hn4⟩ := lowerhex_facts c4 h4
  obtain ⟨hx5, hl5, hn5⟩ := lowerhex_facts c5 h5
  obtain ⟨hx6, hl6, hn6⟩ := lowerhex_facts c6 h6
  have hb1 := hexVal_le c1
  have hb2 := hexVal_le c2
  have hb3 := hexVal_le c3
  have hb4 := hexVal_le c4
  have hb5 := hexVal_le c5
  have hb6 := hexVal_le c6
  have hglast : [c1, c2, c3, c4, c5, c6].getLast? = some c6 := rfl
  have hmatch : hexColorMatch ['#', c1, c2, c3, c4, c5, c6] =
      some [c1, c2, c3, c4, c5, c6] := by
    simp only [hexColorMatch, if_true]
    rw [hglast, if_neg (show ¬ (some c6 = some '\n') by simp [hn6])]
    unfold hexGroupMatch
    rw [if_pos]
    refine ⟨Or.inr (by simp), ?_⟩
    simp [List.all_cons, hx1, hx2, hx3, hx4, hx5, hx6]
  have hlower : [c1, c2, c3, c4, c5, c6].map Char.toLower =
      [c1, c2, c3, c4, c5, c6] := by
    simp [hl1, hl2, hl3, hl4, hl5, hl6]
  have hnorm : normalize_hex (String.mk ['#', c1, c2, c3, c4, c5, c6]) =
      Except.ok (String.mk ['#', c1, c2, c3, c4, c5, c6]) := by
    unfold normalize_hex
    have htl : (String.mk ['#', c1, c2, c3, c4, c5, c6]).toList =
        '#' :: [c1, c2, c3, c4, c5, c6] := rfl
    rw [htl]
    simp only [hmatch]
    simp only [List.length_cons, List.length_nil]
    rw [if_neg (by omega)]
    rw [hlower]
  have hfold : [c1, c2, c3, c4, c5, c6].foldl (fun a c => a * 16 + hexVal c) 0 =
      (hexVal c1 * 16 + hexVal c2) * 65536 + (hexVal c3 * 16 + hexVal c4) * 256 +
        (hexVal c5 * 16 + hexVal c6) := by
    simp only [List.foldl_cons, List.foldl_nil]
    ring
  have hp16 : (2 : Nat) ^ 16 = 65536 := by norm_num
  have hp8 : (2 : Nat) ^ 8 = 256 := by norm_num
  have e1 : ((hexVal c1 * 16 + hexVal c2) * 65536 + (hexVal c3 * 16 + hexVal c4) *
      256 + (hexVal c5 * 16 + hexVal c6)) >>> 16 = hexVal c1 * 16 + hexVal c2 := by
    rw [Nat.shiftRight_eq_div_pow, hp16]
    omega
  have e2 : (((hexVal c1 * 16 + hexVal c2) * 65536 + (hexVal c3 * 16 + hexVal c4) *
      256 + (hexVal c5 * 16 + hexVal c6)) >>> 8) &&& 255 =
      hexVal c3 * 16 + hexVal c4 := by
    rw [Nat.shiftRight_eq_div_pow, hp8, land_255]
    omega
  have e3 : ((hexVal c1 * 16 + hexVal c2) * 65536 + (hexVal c3 * 16 + hexVal c4) *
      256 + (hexVal c5 * 16 + hexVal c6)) &&& 255 = hexVal c5 * 16 + hexVal c6 := by
    rw [land_255]
    omega
  have hrgb : hex_to_rgb (String.mk ['#', c1, c2, c3, c4, c5, c6]) =
      Except.ok (((hexVal c1 * 16 + hexVal c2 : Nat) : Int),
        ((hexVal c3 * 16 + hexVal c4 : Nat) : Int),
        ((hexVal c5 * 16 + hexVal c6 : Nat) : Int)) := by
    unfold hex_to_rgb
    simp only [hnorm]
    have hdrop : (String.mk ['#', c1, c2, c3, c4, c5, c6]).toList.drop 1 =
        [c1, c2, c3, c4, c5, c6] := rfl
    rw [hdrop]
    simp only [intBase16_ok _ (show [c1, c2, c3, c4, c5, c6] ≠ [] by simp)
      (by simp [List.all_cons, hx1, hx2, hx3, hx4, hx5, hx6]), hfold, e1, e2, e3]
  have hclamp : ∀ m : Nat, m ≤ 255 → _normalize_integer_rgb ((m : Nat) : Int) =
      ((m : Nat) : Int) := by
    intro m hm
    unfold _normalize_integer_rgb
    rw [if_neg (by omega), if_neg (by omega)]
  rw [hrgb]
  simp only [Except.map]
  unfold rgb_to_hex normalize_integer_triplet
  simp only
  rw [hclamp _ (by omega), hclamp _ (by omega), hclamp _ (by omega)]
  simp only [Int.toNat_natCast]
  rw [format02x_pair c1 h1 c2 h2, format02x_pair c3 h3 c4 h4,
    format02x_pair c5 h5 c6 h6]
  rfl

/-- C4 witness: the round trip is the identity on the lowercase value 1a2b3c. -/
theorem claim4_roundtrip_lowercase_witness :
    (hex_to_rgb (String.mk ['#', '1', 'a', '2', 'b', '3', 'c'])).map rgb_to_hex =
      Except.ok (String.mk ['#', '1', 'a', '2', 'b', '3', 'c']) :=
  claim4_roundtrip_lowercase '1' 'a' '2' 'b' '3' 'c' (by decide) (by decide)
    (by decide) (by decide) (by decide) (by decide)
-- Claim C6.

theorem parseComponents_ne (r g b : List Char) (e : ColorError)
    (he : e ≠ ColorError.invalidIntLiteral) :
    parseComponents r g b ≠ Except.error e := by
  unfold parseComponents
  split
  · simp
  · simp only [ne_eq, Except.error.injEq]
    exact fun h => he h.symm

/-- C6: `html5_parse_simple_color` fails with the length error exactly when
the input is not seven characters; otherwise with the hash error exactly when
the first character is not a number sign; otherwise with the hex-digit error
exactly when the last six characters are not all ASCII hex digits; and on
every input passing the three checks it returns the three pairs of characters
parsed as independent base-16 bytes, so the value 123456 parses to
(18, 52, 86). -/
theorem claim6_simple_characterization :
    (∀ s : List Char,
      html5_parse_simple_color s = Except.error ColorError.invalidLength ↔
        s.length ≠ 7)
    ∧ (∀ s : List Char,
      html5_parse_simple_color s = Except.error ColorError.missingHashMark ↔
        s.length = 7 ∧ s.head? ≠ some '#')
    ∧ (∀ s : List Char,
      html5_parse_simple_color s = Except.error ColorError.invalidHexDigits ↔
        s.length = 7 ∧ s.head? = some '#' ∧ ¬ (s.drop 1).all isHexDigit = true)
    ∧ (∀ c1 c2 c3 c4 c5 c6 : Char, [c1, c2, c3, c4, c5, c6].all isHexDigit = true →
      html5_parse_simple_color ['#', c1, c2, c3, c4, c5, c6] =
        Except.ok (hexVal c1 * 16 + hexVal c2, hexVal c3 * 16 + hexVal c4,
          hexVal c5 * 16 + hexVal c6))
    ∧ html5_parse_simple_color "#123456".toList = Except.ok (18, 52, 86) := by
  refine ⟨?_, ?_, ?_, ?_, by decide⟩
  · intro s
    by_cases hL : s.length = 7
    · refine iff_of_false ?_ (by omega)
      unfold html5_parse_simple_color
      rw [if_neg (by omega)]
      split
      · simp
      · split
        · simp
        · exact parseComponents_ne _ _ _ _ (by decide)
    · refine iff_of_true ?_ hL
      unfold html5_parse_simple_color
      rw [if_pos hL]
  · intro s
    by_cases hL : s.length = 7
    · by_cases hH : s.head? = some '#'
      · refine iff_of_false ?_ (fun h => h.2 hH)
        unfold html5_parse_simple_color
        rw [if_neg (by omega), if_neg (by simp [hH])]
        split
        · simp
        · exact parseComponents_ne _ _ _ _ (by decide)
      · refine iff_of_true ?_ ⟨hL, hH⟩
        unfold html5_parse_simple_color
        rw [if_neg (by omega), if_pos hH]
    · refine iff_of_false ?_ (fun h => hL h.1)
      unfold html5_parse_simple_color
      rw [if_pos hL]
      simp
  · intro s
    by_cases hL : s.length = 7
    · by_cases hH : s.head? = some '#'
      · by_cases hX : (s.drop 1).all isHexDigit = true
        · refine iff_of_false ?_ (fun h => h.2.2 hX)
          unfold html5_parse_simple_color
          rw [if_neg (by omega), if_neg (by simp [hH]), if_neg (not_not_intro hX)]
          exact parseComponents_ne _ _ _ _ (by decide)
        · refine iff_of_true ?_ ⟨hL, hH, hX⟩
          unfold html5_parse_simple_color
          rw [if_neg (by omega), if_neg (by simp [hH]), if_pos hX]
      · refine iff_of_false ?_ (fun h => hH h.2.1)
        unfold html5_parse_simple_color
        rw [if_neg (by omega), if_pos hH]
        simp
    · refine iff_of_false ?_ (fun h => hL h.1)
      unfold html5_parse_simple_color
      rw [if_pos hL]
      simp
  · intro c1 c2 c3 c4 c5 c6 hhex
    simp only [List.all_cons, List.all_nil, Bool.and_eq_true, Bool.and_true] at hhex
    obtain ⟨hx1, hx2, hx3, hx4, hx5, hx6⟩ := hhex
    unfold html5_parse_simple_color
    rw [if_neg (by simp), if_neg (by simp)]
    rw [if_neg (by simp [hx1, hx2, hx3, hx4, hx5, hx6])]
    have t1 : (['#', c1, c2, c3, c4, c5, c6].drop 1).take 2 = [c1, c2] := rfl
    have t2 : (['#', c1, c2, c3, c4, c5, c6].drop 3).take 2 = [c3, c4] := rfl
    have t3 : (['#', c1, c2, c3, c4, c5, c6].drop 5).take 2 = [c5, c6] := rfl
    rw [t1, t2, t3, parseComponents_ok _ _ _ (by simp) (by simp) (by simp)
      (by simp [List.all_cons, hx1, hx2]) (by simp [List.all_cons, hx3, hx4])
      (by simp [List.all_cons, hx5, hx6])]
    simp [List.foldl_cons, List.foldl_nil]

/-- C6 witness: a 5-character input fails with the length error (and the
characterization applies to it with its hypotheses discharged). -/
theorem claim6_simple_characterization_witness :
    html5_parse_simple_color "#1234".toList = Except.error ColorError.invalidLength :=
  (claim6_simple_characterization.1 "#1234".toList).mpr (by decide)

-- Claim C7.

/-- C7: when the trimmed input is not the transparency keyword, not a CSS3
keyword, and is exactly a number sign followed by three ASCII hex digits, the
legacy parser returns each digit value multiplied by 17 (the duplicated
nibble expansion); in particular the value abc parses to (170, 187, 204). -/
theorem claim7_four_char_branch :
    (∀ (input : List Char) (c1 c2 c3 : Char), input ≠ [] →
      (pyStrip input).map Char.toLower ≠ "transparent".toList →
      CSS3_NAMES_TO_HEX.lookup (String.mk ((pyStrip input).map Char.toLower)) = none →
      pyStrip input = ['#', c1, c2, c3] →
      (isHexDigit c1 && isHexDigit c2 && isHexDigit c3) = true →
      html5_parse_legacy_color input =
        Except.ok (hexVal c1 * 17, hexVal c2 * 17, hexVal c3 * 17))
    ∧ html5_parse_legacy_color "#abc".toList = Except.ok (170, 187, 204) := by
  constructor
  · intro input c1 c2 c3 h1 h2 hlk hstrip hhex
    simp only [Bool.and_eq_true] at hhex
    obtain ⟨⟨hx1, hx2⟩, hx3⟩ := hhex
    simp only [html5_parse_legacy_color, if_neg h1, if_neg h2, hlk]
    rw [hstrip]
    rw [if_pos ⟨by simp, by simp, by simp [List.all_cons, hx1, hx2, hx3]⟩]
    have t1 : (['#', c1, c2, c3].drop 1).take 1 = [c1] := rfl
    have t2 : (['#', c1, c2, c3].drop 2).take 1 = [c2] := rfl
    have t3 : (['#', c1, c2, c3].drop 3).take 1 = [c3] := rfl
    rw [t1, t2, t3]
    have hpc := parseComponents_ok [c1] [c2] [c3] (by simp) (by simp) (by simp)
      (by simp [hx1]) (by simp [hx2]) (by simp [hx3])
    simp only [hpc, List.foldl_cons, List.foldl_nil, Nat.zero_mul, Nat.zero_add]
  · decide

/-- C7 witness: the branch applies to the concrete input abc after the number
sign, with every hypothesis discharged by computation. -/
theorem claim7_four_char_branch_witness :
    html5_parse_legacy_color "#abc".toList = Except.ok (170, 187, 204) := by
  have h := claim7_four_char_branch.1 "#abc".toList 'a' 'b' 'c' (by decide)
    (by decide) (by decide) (by decide) (by decide)
  rw [h]
  decide
-- Claim C5.

theorem special_clamp : ∀ v ∈ specialValues, _normalize_integer_rgb v = v := by
  decide

theorem special_component_roundtrip : ∀ v ∈ specialValues,
    _normalize_percent_rgb (rgbPercentComponent v) =
      Except.ok (rgbPercentComponent v)
    ∧ _percent_to_integer (rgbPercentComponent v) = Except.ok v := by decide

/-- C5: a triplet whose components are all among 0, 16, 32, 64, 128, 255
round-trips exactly through the percentage representation and back. -/
theorem claim5_special_roundtrip (r g b : Int) (hr : r ∈ specialValues)
    (hg : g ∈ specialValues) (hb : b ∈ specialValues) :
    rgb_percent_to_rgb (rgb_to_rgb_percent (r, g, b)) = Except.ok (r, g, b) := by
  obtain ⟨hnr, hpr⟩ := special_component_roundtrip r hr
  obtain ⟨hng, hpg⟩ := special_component_roundtrip g hg
  obtain ⟨hnb, hpb⟩ := special_component_roundtrip b hb
  unfold rgb_to_rgb_percent normalize_integer_triplet
  simp only [special_clamp r hr, special_clamp g hg, special_clamp b hb]
  unfold rgb_percent_to_rgb normalize_percent_triplet
  simp only [hnr, hng, hnb, hpr, hpg, hpb]

/-- C5 witness: the triplet (0, 16, 255) round-trips exactly. -/
theorem claim5_special_roundtrip_witness :
    rgb_percent_to_rgb (rgb_to_rgb_percent (0, 16, 255)) = Except.ok (0, 16, 255) :=
  claim5_special_roundtrip 0 16 255 (by decide) (by decide) (by decide)

-- Claim C8.

theorem percent_component_rule : ∀ v ∈ List.range 256,
    rgbPercentComponent ((v : Nat) : Int) = specRulePercent v := by decide

/-- C8: `rgb_to_rgb_percent` maps each clamped component by the precision
rule of `specRulePercent`: the six special values give their literal strings
and every other value in 0-255 the two-decimal formatting of its scaled
value. -/
theorem claim8_percent_rule (t : Int × Int × Int) :
    rgb_to_rgb_percent t =
      (specRulePercent (_normalize_integer_rgb t.1).toNat,
        specRulePercent (_normalize_integer_rgb t.2.1).toNat,
        specRulePercent (_normalize_integer_rgb t.2.2).toNat) := by
  have key : ∀ v : Int, rgbPercentComponent (_normalize_integer_rgb v) =
      specRulePercent (_normalize_integer_rgb v).toNat := by
    intro v
    have hv : 0 ≤ _normalize_integer_rgb v ∧ _normalize_integer_rgb v ≤ 255 := by
      unfold _normalize_integer_rgb
      split
      · omega
      · split <;> omega
    have hmem : (_normalize_integer_rgb v).toNat ∈ List.range 256 := by
      rw [List.mem_range]
      omega
    have hrule := percent_component_rule _ hmem
    rw [Int.toNat_of_nonneg hv.1] at hrule
    exact hrule
  unfold rgb_to_rgb_percent normalize_integer_triplet
  simp only
  rw [key t.1, key t.2.1, key t.2.2]

/-- C8 witness: the rule applies at the triplet (1, 16, 300); the third
component clamps to 255. -/
theorem claim8_percent_rule_witness :
    rgb_to_rgb_percent (1, 16, 300) =
      (specRulePercent 1, specRulePercent 16, specRulePercent 255) := by
  have h := claim8_percent_rule (1, 16, 300)
  rw [h]
  decide

end Webcolors
